import Mathlib

/-!
# light-matrix: the matrix concept hierarchy (`light_mat/matrix/matrix_concepts.h`)

A shallow embedding of the CRTP interfaces `IMatrixXpr`, `matrix_xpr_base`,
`sarg_matrix_xpr_base`, `ewise_matrix_base` and `IRegularMatrix`.

* `index_t` is embedded as `Int`; the interface only compares and forwards indices.
* The build switch `LMAT_ENABLE_INDEX_CHECKING` is an explicit `Bool` argument.
* A call is a value of `Run α`: the list of members of the concrete type (and of the
  view / iterator resolvers) that were entered, in order, together with either the
  returned value or the message of the raised argument error.
* `derived()` is the concrete type itself: a record of the answers its members give.
-/

namespace lmat

/-- The index type of the library. -/
abbrev index_t := Int

/-- One entry of the concrete type's (or of a resolver's) member set: what a call that
leaves the interface enters. -/
inductive Call where
  | nelems
  | nrows
  | ncolumns
  | shape
  | is_contiguous
  | is_percol_contiguous
  | row_stride
  | col_stride
  | ptr_data
  | ptr_col (j : index_t)
  | ptr_row (i : index_t)
  | elem (i j : index_t)
  | iter_begin
  | iter_end
  | iter_col_begin (j : index_t)
  | iter_col_end (j : index_t)
  | vecview_get
  | colview_get (j : index_t)
  | rowview_get (i : index_t)
  | matview_get
  | diagview_get
  deriving DecidableEq, Repr

/-- Outcome of running a member function: the external members entered so far and the
value returned, or the message of the argument error that ended the call. -/
structure Run (α : Type) where
  calls : List Call
  result : Except String α

namespace Run

/-- Return without entering anything. -/
def ret {α : Type} (a : α) : Run α := ⟨[], Except.ok a⟩

/-- Raise the argument error carrying the message. -/
def raise {α : Type} (msg : String) : Run α := ⟨[], Except.error msg⟩

/-- Sequencing: an error ends the call, nothing after it is entered. -/
def andThen {α β : Type} (x : Run α) (f : α → Run β) : Run β :=
  match x.result with
  | Except.error e => ⟨x.calls, Except.error e⟩
  | Except.ok a => ⟨x.calls ++ (f a).calls, (f a).result⟩

instance : Monad Run where
  pure := ret
  bind := andThen

/-- Whether the call ended with an argument error. -/
def failed {α : Type} (x : Run α) : Bool :=
  match x.result with
  | Except.error _ => true
  | Except.ok _ => false

end Run

/-- Static dispatch into the concrete type (or a resolver): the member is entered and
its answer returned. -/
def derived_call {α : Type} (c : Call) (v : α) : Run α := ⟨[c], Except.ok v⟩

/-- Modelled from the spec: `check_arg`, the argument-validation channel that the
`LMAT_CHECK_*` macros call and that is defined outside `matrix_concepts.h`. A violated
condition is reported as an argument error carrying the given message; a satisfied
one does nothing. -/
def check_arg (cond : Bool) (msg : String) : Run Unit :=
  if cond then Run.ret () else Run.raise msg

/-- The macro `LMAT_CHECK_IDX(i, n)`: expands to
`check_arg(i >= 0 && i < (n), "Index out of range.");` when index checking is enabled,
and to nothing otherwise. `n` is an expression, evaluated only if `i >= 0`. -/
def LMAT_CHECK_IDX (checking : Bool) (i : index_t) (n : Run index_t) : Run Unit :=
  if checking then do
    let c ← (if i ≥ 0 then do
          let nv ← n
          pure (decide (i < nv))
        else pure false)
    check_arg c "Index out of range."
  else pure ()

/-- The macro `LMAT_CHECK_SUBS(a, i, j)`: expands to
`check_arg(i >= 0 && i < (a).nrows() && j >= 0 && j < (a).ncolumns(), "Subscripts out of range.");`
when index checking is enabled, and to nothing otherwise. The conjunction is
short-circuit: later operands are evaluated only when the earlier ones hold. -/
def LMAT_CHECK_SUBS (checking : Bool) (nrows ncolumns : Run index_t) (i j : index_t) :
    Run Unit :=
  if checking then do
    let c ← (if i ≥ 0 then do
          let m ← nrows
          if i < m then
            if j ≥ 0 then do
              let n ← ncolumns
              pure (decide (j < n))
            else pure false
          else pure false
        else pure false)
    check_arg c "Subscripts out of range."
  else pure ()

/-- The associated types the trait lookup (`meta::shape`, `meta::pointer_of`, ...)
yields for a concrete matrix type. -/
structure Traits where
  shape_type : Type
  pointer : Type
  const_pointer : Type
  reference : Type
  const_reference : Type

/-- The concrete matrix type behind the CRTP interface: the answers of its own members. -/
structure Derived (X : Traits) where
  nelems : index_t
  nrows : index_t
  ncolumns : index_t
  shape : X.shape_type
  is_contiguous : Bool
  is_percol_contiguous : Bool
  row_stride : index_t
  col_stride : index_t
  ptr_data_const : X.const_pointer
  ptr_data : X.pointer
  ptr_col_const : index_t → X.const_pointer
  ptr_col : index_t → X.pointer
  ptr_row_const : index_t → X.const_pointer
  ptr_row : index_t → X.pointer
  elem_const : index_t → index_t → X.const_reference
  elem : index_t → index_t → X.reference

/-- The range tag selecting a whole axis. -/
inductive whole where
  | mk
  deriving DecidableEq, Repr

/-- A view resolver with one fixed index (`colview_map<Derived, Range>` and
`rowview_map<Derived, Range>`): the two result types and the `get` factories. The
resolvers are declared outside `matrix_concepts.h`; the interface takes them as given. -/
structure axis_view_map (X : Traits) (Range : Type) where
  type : Type
  const_type : Type
  get : Derived X → index_t → Range → type
  get_const : Derived X → index_t → Range → const_type

/-- The resolver `vecview_map<Derived, Range>`. -/
structure vecview_map (X : Traits) (Range : Type) where
  type : Type
  const_type : Type
  get : Derived X → Range → type
  get_const : Derived X → Range → const_type

/-- The resolver `matview_map<Derived, Range0, Range1>`. -/
structure matview_map (X : Traits) (Range0 Range1 : Type) where
  type : Type
  const_type : Type
  get : Derived X → Range0 → Range1 → type
  get_const : Derived X → Range0 → Range1 → const_type

/-- The resolver `diagview_map<Derived>`. -/
structure diagview_map (X : Traits) where
  type : Type
  const_type : Type
  get : Derived X → type
  get_const : Derived X → const_type

/-- The iterator selector `matrix_iter<Derived>`. -/
structure matrix_iter (X : Traits) where
  iterator : Type
  const_iterator : Type
  col_iterator : Type
  col_const_iterator : Type
  begin_ : Derived X → iterator
  end_ : Derived X → iterator
  begin_const : Derived X → const_iterator
  end_const : Derived X → const_iterator
  col_begin : Derived X → index_t → col_iterator
  col_end : Derived X → index_t → col_iterator
  col_begin_const : Derived X → index_t → col_const_iterator
  col_end_const : Derived X → index_t → col_const_iterator

/-! ## `IRegularMatrix<Derived, T>` -/

namespace IRegularMatrix

variable {X : Traits}

/-- Member `nelems()`: `return derived().nelems();` -/
def nelems (a : Derived X) : Run index_t := derived_call Call.nelems a.nelems

/-- Member `nrows()`: `return derived().nrows();` -/
def nrows (a : Derived X) : Run index_t := derived_call Call.nrows a.nrows

/-- Member `ncolumns()`: `return derived().ncolumns();` -/
def ncolumns (a : Derived X) : Run index_t := derived_call Call.ncolumns a.ncolumns

/-- Member `shape()`: `return derived().shape();` -/
def shape (a : Derived X) : Run X.shape_type := derived_call Call.shape a.shape

/-- Member `is_contiguous()`: `return derived().is_contiguous();` -/
def is_contiguous (a : Derived X) : Run Bool :=
  derived_call Call.is_contiguous a.is_contiguous

/-- Member `is_percol_contiguous()`: `return derived().is_percol_contiguous();` -/
def is_percol_contiguous (a : Derived X) : Run Bool :=
  derived_call Call.is_percol_contiguous a.is_percol_contiguous

/-- Member `row_stride()`: `return derived().row_stride();` -/
def row_stride (a : Derived X) : Run index_t := derived_call Call.row_stride a.row_stride

/-- Member `col_stride()`: `return derived().col_stride();` -/
def col_stride (a : Derived X) : Run index_t := derived_call Call.col_stride a.col_stride

/-- Member `ptr_data() const`: `return derived().ptr_data();` -/
def ptr_data_const (a : Derived X) : Run X.const_pointer :=
  derived_call Call.ptr_data a.ptr_data_const

/-- Member `ptr_data()`: `return derived().ptr_data();` -/
def ptr_data (a : Derived X) : Run X.pointer := derived_call Call.ptr_data a.ptr_data

/-- Member `ptr_col(j) const`: `LMAT_CHECK_IDX(j, ncolumns()) return derived().ptr_col(j);` -/
def ptr_col_const (checking : Bool) (a : Derived X) (j : index_t) : Run X.const_pointer := do
  LMAT_CHECK_IDX checking j (ncolumns a)
  derived_call (Call.ptr_col j) (a.ptr_col_const j)

/-- Member `ptr_col(j)`: `LMAT_CHECK_IDX(j, ncolumns()) return derived().ptr_col(j);` -/
def ptr_col (checking : Bool) (a : Derived X) (j : index_t) : Run X.pointer := do
  LMAT_CHECK_IDX checking j (ncolumns a)
  derived_call (Call.ptr_col j) (a.ptr_col j)

/-- Member `ptr_row(i) const`: `LMAT_CHECK_IDX(i, nrows()) return derived().ptr_row(i);` -/
def ptr_row_const (checking : Bool) (a : Derived X) (i : index_t) : Run X.const_pointer := do
  LMAT_CHECK_IDX checking i (nrows a)
  derived_call (Call.ptr_row i) (a.ptr_row_const i)

/-- Member `ptr_row(i)`: `LMAT_CHECK_IDX(i, nrows()) return derived().ptr_row(i);` -/
def ptr_row (checking : Bool) (a : Derived X) (i : index_t) : Run X.pointer := do
  LMAT_CHECK_IDX checking i (nrows a)
  derived_call (Call.ptr_row i) (a.ptr_row i)

/-- Member `elem(i, j) const`: `return derived().elem(i, j);` -/
def elem_const (a : Derived X) (i j : index_t) : Run X.const_reference :=
  derived_call (Call.elem i j) (a.elem_const i j)

/-- Member `elem(i, j)`: `return derived().elem(i, j);` -/
def elem (a : Derived X) (i j : index_t) : Run X.reference :=
  derived_call (Call.elem i j) (a.elem i j)

/-- Member `operator()(i, j) const`: `LMAT_CHECK_SUBS(*this, i, j) return elem(i, j);` -/
def op_call_const (checking : Bool) (a : Derived X) (i j : index_t) :
    Run X.const_reference := do
  LMAT_CHECK_SUBS checking (nrows a) (ncolumns a) i j
  elem_const a i j

/-- Member `operator()(i, j)`: `LMAT_CHECK_SUBS(*this, i, j) return elem(i, j);` -/
def op_call (checking : Bool) (a : Derived X) (i j : index_t) : Run X.reference := do
  LMAT_CHECK_SUBS checking (nrows a) (ncolumns a) i j
  elem a i j

/-! ### iteration -/

/-- Member `begin() const`: `return matrix_iter<Derived>::begin(derived());` -/
def begin_const (it : matrix_iter X) (a : Derived X) : Run it.const_iterator :=
  derived_call Call.iter_begin (it.begin_const a)

/-- Member `end() const`: `return matrix_iter<Derived>::end(derived());` -/
def end_const (it : matrix_iter X) (a : Derived X) : Run it.const_iterator :=
  derived_call Call.iter_end (it.end_const a)

/-- Member `begin()`: `return matrix_iter<Derived>::begin(derived());` -/
def begin_ (it : matrix_iter X) (a : Derived X) : Run it.iterator :=
  derived_call Call.iter_begin (it.begin_ a)

/-- Member `end()`: `return matrix_iter<Derived>::end(derived());` -/
def end_ (it : matrix_iter X) (a : Derived X) : Run it.iterator :=
  derived_call Call.iter_end (it.end_ a)

/-- Member `col_begin(j) const`: `return matrix_iter<Derived>::col_begin(derived(), j);` -/
def col_begin_const (it : matrix_iter X) (a : Derived X) (j : index_t) :
    Run it.col_const_iterator :=
  derived_call (Call.iter_col_begin j) (it.col_begin_const a j)

/-- Member `col_end(j) const`: `return matrix_iter<Derived>::col_end(derived(), j);` -/
def col_end_const (it : matrix_iter X) (a : Derived X) (j : index_t) :
    Run it.col_const_iterator :=
  derived_call (Call.iter_col_end j) (it.col_end_const a j)

/-- Member `col_begin(j)`: `return matrix_iter<Derived>::col_begin(derived(), j);` -/
def col_begin (it : matrix_iter X) (a : Derived X) (j : index_t) : Run it.col_iterator :=
  derived_call (Call.iter_col_begin j) (it.col_begin a j)

/-- Member `col_end(j)`: `return matrix_iter<Derived>::col_end(derived(), j);` -/
def col_end (it : matrix_iter X) (a : Derived X) (j : index_t) : Run it.col_iterator :=
  derived_call (Call.iter_col_end j) (it.col_end a j)

/-! ### views -/

/-- Member `operator()(rgn) const`: `return vecview_map<Derived, Range>::get(derived(), rgn.derived());` -/
def op_call_vec_const {Range : Type} (vm : vecview_map X Range) (a : Derived X)
    (rgn : Range) : Run vm.const_type :=
  derived_call Call.vecview_get (vm.get_const a rgn)

/-- Member `operator()(rgn)`: `return vecview_map<Derived, Range>::get(derived(), rgn.derived());` -/
def op_call_vec {Range : Type} (vm : vecview_map X Range) (a : Derived X)
    (rgn : Range) : Run vm.type :=
  derived_call Call.vecview_get (vm.get a rgn)

/-- Member `column(j) const`: `LMAT_CHECK_IDX(j, this->ncolumns())`
`return colview_map<Derived, whole>::get(derived(), j, whole());` -/
def column_const (checking : Bool) (cm : axis_view_map X whole) (a : Derived X)
    (j : index_t) : Run cm.const_type := do
  LMAT_CHECK_IDX checking j (ncolumns a)
  derived_call (Call.colview_get j) (cm.get_const a j whole.mk)

/-- Member `column(j)`: `LMAT_CHECK_IDX(j, this->ncolumns())`
`return colview_map<Derived, whole>::get(derived(), j, whole());` -/
def column (checking : Bool) (cm : axis_view_map X whole) (a : Derived X)
    (j : index_t) : Run cm.type := do
  LMAT_CHECK_IDX checking j (ncolumns a)
  derived_call (Call.colview_get j) (cm.get a j whole.mk)

/-- Member `operator()(rgn, j) const`: `LMAT_CHECK_IDX(j, this->ncolumns())`
`return colview_map<Derived, Range>::get(derived(), j, rgn.derived());` -/
def op_call_range_col_const {Range : Type} (checking : Bool) (cm : axis_view_map X Range)
    (a : Derived X) (rgn : Range) (j : index_t) : Run cm.const_type := do
  LMAT_CHECK_IDX checking j (ncolumns a)
  derived_call (Call.colview_get j) (cm.get_const a j rgn)

/-- Member `operator()(rgn, j)`: `LMAT_CHECK_IDX(j, this->ncolumns())`
`return colview_map<Derived, Range>::get(derived(), j, rgn.derived());` -/
def op_call_range_col {Range : Type} (checking : Bool) (cm : axis_view_map X Range)
    (a : Derived X) (rgn : Range) (j : index_t) : Run cm.type := do
  LMAT_CHECK_IDX checking j (ncolumns a)
  derived_call (Call.colview_get j) (cm.get a j rgn)

/-- Member `row(i) const`: `LMAT_CHECK_IDX(i, this->nrows())`
`return rowview_map<Derived, whole>::get(derived(), i, whole());` -/
def row_const (checking : Bool) (rm : axis_view_map X whole) (a : Derived X)
    (i : index_t) : Run rm.const_type := do
  LMAT_CHECK_IDX checking i (nrows a)
  derived_call (Call.rowview_get i) (rm.get_const a i whole.mk)

/-- Member `row(i)`: `LMAT_CHECK_IDX(i, this->nrows())`
`return rowview_map<Derived, whole>::get(derived(), i, whole());` -/
def row (checking : Bool) (rm : axis_view_map X whole) (a : Derived X)
    (i : index_t) : Run rm.type := do
  LMAT_CHECK_IDX checking i (nrows a)
  derived_call (Call.rowview_get i) (rm.get a i whole.mk)

/-- Member `operator()(i, rgn) const`: `LMAT_CHECK_IDX(i, this->nrows())`
`return rowview_map<Derived, Range>::get(derived(), i, rgn.derived());` -/
def op_call_row_range_const {Range : Type} (checking : Bool) (rm : axis_view_map X Range)
    (a : Derived X) (i : index_t) (rgn : Range) : Run rm.const_type := do
  LMAT_CHECK_IDX checking i (nrows a)
  derived_call (Call.rowview_get i) (rm.get_const a i rgn)

/-- Member `operator()(i, rgn)`: `LMAT_CHECK_IDX(i, this->nrows())`
`return rowview_map<Derived, Range>::get(derived(), i, rgn.derived());` -/
def op_call_row_range {Range : Type} (checking : Bool) (rm : axis_view_map X Range)
    (a : Derived X) (i : index_t) (rgn : Range) : Run rm.type := do
  LMAT_CHECK_IDX checking i (nrows a)
  derived_call (Call.rowview_get i) (rm.get a i rgn)

/-- Member `operator()(row_rgn, col_rgn) const`:
`return matview_map<Derived, Range0, Range1>::get(derived(), row_rgn.derived(), col_rgn.derived());` -/
def op_call_block_const {Range0 Range1 : Type} (mm : matview_map X Range0 Range1)
    (a : Derived X) (row_rgn : Range0) (col_rgn : Range1) : Run mm.const_type :=
  derived_call Call.matview_get (mm.get_const a row_rgn col_rgn)

/-- Member `operator()(row_rgn, col_rgn)`:
`return matview_map<Derived, Range0, Range1>::get(derived(), row_rgn.derived(), col_rgn.derived());` -/
def op_call_block {Range0 Range1 : Type} (mm : matview_map X Range0 Range1)
    (a : Derived X) (row_rgn : Range0) (col_rgn : Range1) : Run mm.type :=
  derived_call Call.matview_get (mm.get a row_rgn col_rgn)

/-- Member `diag() const`: `return diagview_map<Derived>::get(derived());` -/
def diag_const (dm : diagview_map X) (a : Derived X) : Run dm.const_type :=
  derived_call Call.diagview_get (dm.get_const a)

/-- Member `diag()`: `return diagview_map<Derived>::get(derived());` -/
def diag (dm : diagview_map X) (a : Derived X) : Run dm.type :=
  derived_call Call.diagview_get (dm.get a)

end IRegularMatrix

/-- The free functions `begin(mat)` (const): `return mat.begin();` -/
def begin_const {X : Traits} (it : matrix_iter X) (mat : Derived X) : Run it.const_iterator :=
  IRegularMatrix.begin_const it mat

/-- The free function `end(mat)` (const): `return mat.end();` -/
def end_const {X : Traits} (it : matrix_iter X) (mat : Derived X) : Run it.const_iterator :=
  IRegularMatrix.end_const it mat

/-- The free function `begin(mat)`: `return mat.begin();` -/
def begin_ {X : Traits} (it : matrix_iter X) (mat : Derived X) : Run it.iterator :=
  IRegularMatrix.begin_ it mat

/-- The free function `end(mat)`: `return mat.end();` -/
def end_ {X : Traits} (it : matrix_iter X) (mat : Derived X) : Run it.iterator :=
  IRegularMatrix.end_ it mat

/-! ## `IMatrixXpr<Derived, T>` and its concrete bases -/

/-- Modelled from the spec: the shape type `meta::shape<Derived>::type`, declared in
`matrix_meta.h`, outside this file. "Shape: an immutable pair (row count, column
count) ... derived quantity: element count = rows × columns." Whether a count is kept
as a compile-time constant or a runtime value is a choice of representation that the
answers do not depend on. -/
structure matrix_shape where
  m : index_t
  n : index_t
  deriving DecidableEq, Repr

namespace matrix_shape

/-- Row count of the shape. -/
def nrows (s : matrix_shape) : index_t := s.m

/-- Column count of the shape. -/
def ncolumns (s : matrix_shape) : index_t := s.n

/-- Element count of the shape: rows × columns. -/
def nelems (s : matrix_shape) : index_t := s.m * s.n

end matrix_shape

/-- The concrete expression type behind `IMatrixXpr`: the answers of its own members. -/
structure XprDerived (S : Type) where
  nelems : index_t
  nrows : index_t
  ncolumns : index_t
  shape : S

namespace IMatrixXpr

variable {S : Type}

/-- Member `nelems()`: `return derived().nelems();` -/
def nelems (x : XprDerived S) : Run index_t := derived_call Call.nelems x.nelems

/-- Member `nrows()`: `return derived().nrows();` -/
def nrows (x : XprDerived S) : Run index_t := derived_call Call.nrows x.nrows

/-- Member `ncolumns()`: `return derived().ncolumns();` -/
def ncolumns (x : XprDerived S) : Run index_t := derived_call Call.ncolumns x.ncolumns

/-- Member `shape()`: `return derived().shape();` -/
def shape (x : XprDerived S) : Run S := derived_call Call.shape x.shape

end IMatrixXpr

/-- The class `matrix_xpr_base<Derived>`: its one data member, `shape_type m_shape`. -/
structure matrix_xpr_base where
  m_shape : matrix_shape
  deriving DecidableEq, Repr

namespace matrix_xpr_base

/-- Constructor `matrix_xpr_base(index_t m, index_t n) : m_shape(m, n)`. -/
def ctor (m n : index_t) : matrix_xpr_base := ⟨⟨m, n⟩⟩

/-- Constructor `matrix_xpr_base(const shape_type& shape) : m_shape(shape)`. -/
def ctor_shape (shape : matrix_shape) : matrix_xpr_base := ⟨shape⟩

/-- Member `nelems()`: `return m_shape.nelems();` -/
def nelems (b : matrix_xpr_base) : index_t := b.m_shape.nelems

/-- Member `nrows()`: `return m_shape.nrows();` -/
def nrows (b : matrix_xpr_base) : index_t := b.m_shape.nrows

/-- Member `ncolumns()`: `return m_shape.ncolumns();` -/
def ncolumns (b : matrix_xpr_base) : index_t := b.m_shape.ncolumns

/-- Member `shape()`: `return m_shape;` -/
def shape (b : matrix_xpr_base) : matrix_shape := b.m_shape

/-- A concrete expression deriving from the base: `derived()` answers the four queries
with the members it inherits. -/
def derived (b : matrix_xpr_base) : XprDerived matrix_shape :=
  { nelems := b.nelems, nrows := b.nrows, ncolumns := b.ncolumns, shape := b.shape }

end matrix_xpr_base

/-- The class `ewise_matrix_base<Derived>`: its one data member, `shape_type m_shape`. -/
structure ewise_matrix_base where
  m_shape : matrix_shape
  deriving DecidableEq, Repr

namespace ewise_matrix_base

/-- Constructor `ewise_matrix_base(index_t m, index_t n) : m_shape(m, n)`. -/
def ctor (m n : index_t) : ewise_matrix_base := ⟨⟨m, n⟩⟩

/-- Constructor `ewise_matrix_base(const shape_type& shape) : m_shape(shape)`. -/
def ctor_shape (shape : matrix_shape) : ewise_matrix_base := ⟨shape⟩

/-- Member `nelems()`: `return m_shape.nelems();` -/
def nelems (b : ewise_matrix_base) : index_t := b.m_shape.nelems

/-- Member `nrows()`: `return m_shape.nrows();` -/
def nrows (b : ewise_matrix_base) : index_t := b.m_shape.nrows

/-- Member `ncolumns()`: `return m_shape.ncolumns();` -/
def ncolumns (b : ewise_matrix_base) : index_t := b.m_shape.ncolumns

/-- Member `shape()`: `return m_shape;` -/
def shape (b : ewise_matrix_base) : matrix_shape := b.m_shape

/-- A concrete expression deriving from the base: `derived()` answers the four queries
with the members it inherits. -/
def derived (b : ewise_matrix_base) : XprDerived matrix_shape :=
  { nelems := b.nelems, nrows := b.nrows, ncolumns := b.ncolumns, shape := b.shape }

end ewise_matrix_base

/-- The class `sarg_matrix_xpr_base<Derived, Arg>`: its one data member,
`const Arg& m_arg`, the argument expression it refers to. -/
structure sarg_matrix_xpr_base (S : Type) where
  m_arg : XprDerived S

namespace sarg_matrix_xpr_base

variable {S : Type}

/-- Constructor `sarg_matrix_xpr_base(const Arg& arg) : m_arg(arg)`. -/
def ctor (arg : XprDerived S) : sarg_matrix_xpr_base S := ⟨arg⟩

/-- Member `arg()`: `return m_arg;` -/
def arg (b : sarg_matrix_xpr_base S) : XprDerived S := b.m_arg

/-- Member `nelems()`: `return m_arg.nelems();` -/
def nelems (b : sarg_matrix_xpr_base S) : index_t := b.m_arg.nelems

/-- Member `nrows()`: `return m_arg.nrows();` -/
def nrows (b : sarg_matrix_xpr_base S) : index_t := b.m_arg.nrows

/-- Member `ncolumns()`: `return m_arg.ncolumns();` -/
def ncolumns (b : sarg_matrix_xpr_base S) : index_t := b.m_arg.ncolumns

/-- Member `shape()`: `return m_arg.shape();` -/
def shape (b : sarg_matrix_xpr_base S) : S := b.m_arg.shape

/-- A concrete expression deriving from the base: `derived()` answers the four queries
with the members it inherits. -/
def derived (b : sarg_matrix_xpr_base S) : XprDerived S :=
  { nelems := b.nelems, nrows := b.nrows, ncolumns := b.ncolumns, shape := b.shape }

end sarg_matrix_xpr_base

/-! ## Concrete matrices, view resolvers, iterator selector and materialization

None of these is defined in `matrix_concepts.h`; each is modelled from the spec. -/

/-- Modelled from the spec: the address of one element. "The core assumes a single flat
addressable buffer per matrix": an address names the buffer (`block`) and the position
in it (`offset`, counted in elements). Two separately owned storages are two blocks. -/
structure pointer where
  block : Nat
  offset : index_t
  deriving DecidableEq, Repr

/-- Pointer arithmetic `p + k`, within the buffer. -/
def pointer.add (p : pointer) (k : index_t) : pointer := ⟨p.block, p.offset + k⟩

/-- The trait lookup of the modelled concrete types: the shape is a `matrix_shape`,
pointers and element references are element addresses. -/
abbrev view_traits : Traits :=
  { shape_type := matrix_shape, pointer := pointer, const_pointer := pointer,
    reference := pointer, const_reference := pointer }

/-- Modelled from the spec: a concrete matrix or view, the leaf types (dense, reference,
strided reference, and every view of them) that live outside `matrix_concepts.h`. It
"holds a shape (by value), and either owned element storage or a non-owning reference
into another matrix's storage": the base address `data`, the shape, and the two
strides (`row_stride()`, `col_stride()`, in element counts). -/
structure regular_view where
  data : pointer
  shape : matrix_shape
  rstride : index_t
  cstride : index_t
  deriving DecidableEq, Repr

namespace regular_view

/-- Modelled from the spec: the operation set the leaf type implements natively.
Element `(i, j)` lives `i` row strides and `j` column strides after the base address;
"contiguous" is one packed run (row stride 1, columns `nrows` apart), "per-column
contiguous" is each column packed (row stride 1). -/
def derived (v : regular_view) : Derived view_traits :=
  { nelems := v.shape.nelems
    nrows := v.shape.nrows
    ncolumns := v.shape.ncolumns
    shape := v.shape
    is_contiguous := decide (v.rstride = 1 ∧ v.cstride = v.shape.nrows)
    is_percol_contiguous := decide (v.rstride = 1)
    row_stride := v.rstride
    col_stride := v.cstride
    ptr_data_const := v.data
    ptr_data := v.data
    ptr_col_const := fun j => v.data.add (j * v.cstride)
    ptr_col := fun j => v.data.add (j * v.cstride)
    ptr_row_const := fun i => v.data.add (i * v.rstride)
    ptr_row := fun i => v.data.add (i * v.rstride)
    elem_const := fun i j => v.data.add (i * v.rstride + j * v.cstride)
    elem := fun i j => v.data.add (i * v.rstride + j * v.cstride) }

end regular_view

/-- Modelled from the spec: the range tag of "a contiguous sub-interval" of an axis,
the half-open interval from `begin_index` up to `end_index`. -/
structure range where
  begin_index : index_t
  end_index : index_t
  deriving DecidableEq, Repr

/-- Number of indices in the range. -/
def range.num (r : range) : index_t := r.end_index - r.begin_index

/-- Modelled from the spec: a vector view ("plain offset pointer + known extent", with
an explicit stride when it is strided), seen as a matrix of one column. With a single
column the column stride plays no part; it is reported as extent × stride. -/
def vector_view (p : pointer) (len stride : index_t) : regular_view :=
  { data := p, shape := ⟨len, 1⟩, rstride := stride, cstride := len * stride }

/-- Modelled from the spec: `colview_map<Derived, whole>`, the column view over the
whole row axis: it starts at the column's base pointer, has one element per row and
steps by the source's row stride. -/
def colview_whole : axis_view_map view_traits whole :=
  { type := regular_view
    const_type := regular_view
    get := fun a j _ => vector_view (a.ptr_col j) a.nrows a.row_stride
    get_const := fun a j _ => vector_view (a.ptr_col_const j) a.nrows a.row_stride }

/-- Modelled from the spec: `matview_map<Derived, range, range>`, the rectangular
sub-block over a contiguous row interval and a contiguous column interval: the base
pointer is "offset adjusted by the interval start" on each axis, the extents are the
interval lengths, the strides are the source's. -/
def matview_range : matview_map view_traits range range :=
  { type := regular_view
    const_type := regular_view
    get := fun a rr cr =>
      { data := a.ptr_data.add (rr.begin_index * a.row_stride + cr.begin_index * a.col_stride)
        shape := ⟨rr.num, cr.num⟩, rstride := a.row_stride, cstride := a.col_stride }
    get_const := fun a rr cr =>
      { data := a.ptr_data_const.add
          (rr.begin_index * a.row_stride + cr.begin_index * a.col_stride)
        shape := ⟨rr.num, cr.num⟩, rstride := a.row_stride, cstride := a.col_stride } }

/-- Modelled from the spec: `diagview_map<Derived>`, "the main diagonal as a vector
view", "always strided": it starts at the matrix's base pointer, has as many elements
as the shorter axis, and one step moves one row and one column. -/
def diagview : diagview_map view_traits :=
  { type := regular_view
    const_type := regular_view
    get := fun a => vector_view a.ptr_data (min a.nrows a.ncolumns) (a.row_stride + a.col_stride)
    get_const := fun a =>
      vector_view a.ptr_data_const (min a.nrows a.ncolumns) (a.row_stride + a.col_stride) }

/-- Modelled from the spec: `matrix_iter<Derived>` as selected for a contiguous type,
"flat pointer iterator over the full buffer" (and over one packed column for the
per-column pair): `begin` is the base pointer, `end` is `nelems()` elements after it. -/
def contiguous_iter : matrix_iter view_traits :=
  { iterator := pointer
    const_iterator := pointer
    col_iterator := pointer
    col_const_iterator := pointer
    begin_ := fun a => a.ptr_data
    end_ := fun a => a.ptr_data.add a.nelems
    begin_const := fun a => a.ptr_data_const
    end_const := fun a => a.ptr_data_const.add a.nelems
    col_begin := fun a j => a.ptr_col j
    col_end := fun a j => (a.ptr_col j).add a.nrows
    col_begin_const := fun a j => a.ptr_col_const j
    col_end_const := fun a j => (a.ptr_col_const j).add a.nrows }

/-- Modelled from the spec: "iterating `begin()..end()`", the caller's loop
`for (it = first; it != last; ++it) visit(*it)` over a flat pointer iterator: the
element addresses visited, in order. `none` when `last` is not reached within `fuel`
steps. -/
def iterate : Nat → pointer → pointer → Option (List pointer)
  | 0, first, last => if first = last then some [] else none
  | fuel + 1, first, last =>
    if first = last then some []
    else (iterate fuel (first.add 1) last).map (fun rest => first :: rest)

/-- Modelled from the spec: the element storage, one list of values per buffer. -/
abbrev Memory (T : Type) := List (List T)

/-- Modelled from the spec: reading the element at an address; `none` outside every
buffer. -/
def Memory.load {T : Type} (mem : Memory T) (p : pointer) : Option T :=
  match mem.get? p.block with
  | none => none
  | some buf => if 0 ≤ p.offset then buf.get? p.offset.toNat else none

/-- Modelled from the spec: `dense_matrix`, the leaf type that owns its storage, one
packed column-major run: `dense_matrix(m, n, ...)` at the address of its buffer. -/
structure dense_matrix where
  data : pointer
  m : index_t
  n : index_t
  deriving DecidableEq, Repr

/-- The dense matrix as a concrete matrix: packed, columns `m` apart. -/
def dense_matrix.view (a : dense_matrix) : regular_view :=
  { data := a.data, shape := ⟨a.m, a.n⟩, rstride := 1, cstride := a.m }

/-- Modelled from the spec: `ref_matrix(ptr, m, n)`, the leaf type that refers to a
packed buffer it does not own. -/
structure ref_matrix where
  data : pointer
  m : index_t
  n : index_t
  deriving DecidableEq, Repr

/-- The reference matrix as a concrete matrix: packed, columns `m` apart. -/
def ref_matrix.view (a : ref_matrix) : regular_view :=
  { data := a.data, shape := ⟨a.m, a.n⟩, rstride := 1, cstride := a.m }

/-- Modelled from the spec: `ref_matrix_ex(ptr, m, n, ldim)`, the leaf type that refers
to a buffer it does not own whose columns are packed and start `ldim` elements apart
("leading dimension: the stride between the start of consecutive columns"). -/
structure ref_matrix_ex where
  data : pointer
  m : index_t
  n : index_t
  ldim : index_t
  deriving DecidableEq, Repr

/-- The strided reference matrix as a concrete matrix: columns `ldim` apart. -/
def ref_matrix_ex.view (a : ref_matrix_ex) : regular_view :=
  { data := a.data, shape := ⟨a.m, a.n⟩, rstride := 1, cstride := a.ldim }

/-- The three kinds of source matrix that `tests/test_dense_eval.cpp` evaluates:
`dense_matrix`, `ref_matrix` and `ref_matrix_ex`. -/
inductive eval_source where
  | dense (a : dense_matrix)
  | ref (a : ref_matrix)
  | ref_ex (a : ref_matrix_ex)
  deriving DecidableEq, Repr

/-- The source as a concrete matrix. -/
def eval_source.view : eval_source → regular_view
  | eval_source.dense a => a.view
  | eval_source.ref a => a.view
  | eval_source.ref_ex a => a.view

/-- The leading dimension of the source: `m` for the packed kinds. -/
def eval_source.ldim : eval_source → index_t
  | eval_source.dense a => a.m
  | eval_source.ref a => a.m
  | eval_source.ref_ex a => a.ldim

/-- Whether the source's storage is live and holds every element of the matrix: its
buffer exists, the base offset is not negative, and the last element of the last
column is within the buffer. -/
def eval_source.fits {T : Type} (mem : Memory T) (s : eval_source) : Bool :=
  match mem.get? s.view.data.block with
  | none => false
  | some buf =>
    decide (0 ≤ s.view.data.offset ∧
      (s.view.shape.m = 0 ∨ s.view.shape.n = 0 ∨
        s.view.data.offset + (s.view.shape.n - 1) * s.ldim + s.view.shape.m
          ≤ (buf.length : Int)))

/-- Modelled from the spec: the copy loop of a materialization,
`for k in [0, count): dst[k] = src(k)`: the values gathered, or `none` when a read
fails. -/
def gather {T : Type} (src : Nat → Option T) : Nat → Option (List T)
  | 0 => some []
  | k + 1 =>
    match gather src k, src k with
    | some done, some v => some (done ++ [v])
    | _, _ => none

/-- Modelled from the spec: `eval(A)`, the materialization entry point, defined outside
this file. It "produces a matrix R" that is dense, so owns its storage ("distinct
storage"): a new buffer of `nrows() * ncolumns()` values is added to the memory and
filled, column after column, with the source's elements read through the source's
interface. The result is the new memory and the dense matrix over the new buffer; `none`
when an element of the source cannot be read. -/
def eval {T : Type} (mem : Memory T) (a : Derived view_traits) :
    Option (Memory T × dense_matrix) :=
  match gather (fun k : Nat => mem.load (a.elem_const ((k : Int) % a.nrows) ((k : Int) / a.nrows)))
      (a.nrows * a.ncolumns).toNat with
  | none => none
  | some buf => some (mem ++ [buf], { data := ⟨mem.length, 0⟩, m := a.nrows, n := a.ncolumns })

/-! ## Concrete inputs -/

/-- The spec's end-to-end matrix: 4×5, packed, at the start of buffer 0. -/
def example_4x5 : regular_view :=
  { data := ⟨0, 0⟩, shape := ⟨4, 5⟩, rstride := 1, cstride := 4 }

/-- A square 3×3 matrix whose columns start 5 elements apart, 2 elements into buffer 0. -/
def example_3x3 : regular_view :=
  { data := ⟨0, 2⟩, shape := ⟨3, 3⟩, rstride := 1, cstride := 5 }

/-- The buffer of the test case `mat_eval, ref_mat_ex`: `ldim * n = 35` values filled by
`fill_lin` with 1, 2, 3, ... -/
def test_memory : Memory Int :=
  [[1, 2, 3, 4, 5, 6, 7, 8, 9, 10, 11, 12, 13, 14, 15, 16, 17, 18, 19, 20, 21, 22, 23, 24,
    25, 26, 27, 28, 29, 30, 31, 32, 33, 34, 35]]

/-- The source of the test case `mat_eval, ref_mat_ex`:
`ref_matrix_ex a(s.ptr_begin(), m, n, ldim)` with `m = 4`, `n = 5`, `ldim = 7`. -/
def test_ref_ex : eval_source :=
  eval_source.ref_ex { data := ⟨0, 0⟩, m := 4, n := 5, ldim := 7 }

/-! ## Theorems -/

section Lemmas

theorem Run.bind_eq {α β : Type} (x : Run α) (f : α → Run β) :
    (x >>= f) = Run.andThen x f := rfl

theorem Run.pure_eq {α : Type} (a : α) : (pure a : Run α) = Run.ret a := rfl

/-- The index check followed by a dispatch, with checking enabled. -/
theorem check_idx_then {α : Type} (i n : index_t) (c c2 : Call) (v : α) :
    (LMAT_CHECK_IDX true i (derived_call c n) >>= fun _ => derived_call c2 v) =
      if 0 ≤ i then
        (if i < n then ⟨[c, c2], Except.ok v⟩
         else ⟨[c], Except.error "Index out of range."⟩)
      else ⟨[], Except.error "Index out of range."⟩ := by
  by_cases h0 : 0 ≤ i
  · by_cases h1 : i < n
    · simp [LMAT_CHECK_IDX, Run.bind_eq, Run.pure_eq, Run.andThen, Run.ret, Run.raise,
        derived_call, check_arg, h0, h1]
    · simp [LMAT_CHECK_IDX, Run.bind_eq, Run.pure_eq, Run.andThen, Run.ret, Run.raise,
        derived_call, check_arg, h0, h1]
  · simp [LMAT_CHECK_IDX, Run.bind_eq, Run.pure_eq, Run.andThen, Run.ret, Run.raise,
      derived_call, check_arg, h0]

/-- The index check followed by a dispatch, with checking disabled. -/
theorem nocheck_idx_then {α : Type} (i : index_t) (n : Run index_t) (c2 : Call) (v : α) :
    (LMAT_CHECK_IDX false i n >>= fun _ => derived_call c2 v) = derived_call c2 v := by
  simp [LMAT_CHECK_IDX, Run.bind_eq, Run.pure_eq, Run.andThen, Run.ret, derived_call]

/-- The subscript check followed by a dispatch, with checking enabled. -/
theorem check_subs_then {α : Type} (i j m n : index_t) (c1 c2 c3 : Call) (v : α) :
    (LMAT_CHECK_SUBS true (derived_call c1 m) (derived_call c2 n) i j
        >>= fun _ => derived_call c3 v) =
      if 0 ≤ i then
        (if i < m then
          (if 0 ≤ j then
            (if j < n then ⟨[c1, c2, c3], Except.ok v⟩
             else ⟨[c1, c2], Except.error "Subscripts out of range."⟩)
           else ⟨[c1], Except.error "Subscripts out of range."⟩)
         else ⟨[c1], Except.error "Subscripts out of range."⟩)
      else ⟨[], Except.error "Subscripts out of range."⟩ := by
  by_cases h0 : 0 ≤ i
  · by_cases h1 : i < m
    · by_cases h2 : 0 ≤ j
      · by_cases h3 : j < n
        · simp [LMAT_CHECK_SUBS, Run.bind_eq, Run.pure_eq, Run.andThen, Run.ret, Run.raise,
            derived_call, check_arg, h0, h1, h2, h3]
        · simp [LMAT_CHECK_SUBS, Run.bind_eq, Run.pure_eq, Run.andThen, Run.ret, Run.raise,
            derived_call, check_arg, h0, h1, h2, h3]
      · simp [LMAT_CHECK_SUBS, Run.bind_eq, Run.pure_eq, Run.andThen, Run.ret, Run.raise,
          derived_call, check_arg, h0, h1, h2]
    · simp [LMAT_CHECK_SUBS, Run.bind_eq, Run.pure_eq, Run.andThen, Run.ret, Run.raise,
        derived_call, check_arg, h0, h1]
  · simp [LMAT_CHECK_SUBS, Run.bind_eq, Run.pure_eq, Run.andThen, Run.ret, Run.raise,
      derived_call, check_arg, h0]

/-- The subscript check followed by a dispatch, with checking disabled. -/
theorem nocheck_subs_then {α : Type} (i j : index_t) (m n : Run index_t) (c3 : Call) (v : α) :
    (LMAT_CHECK_SUBS false m n i j >>= fun _ => derived_call c3 v) = derived_call c3 v := by
  simp [LMAT_CHECK_SUBS, Run.bind_eq, Run.pure_eq, Run.andThen, Run.ret, derived_call]

end Lemmas

section Checked

variable {X : Traits}

theorem op_call_true_eq (a : Derived X) (i j : index_t) :
    IRegularMatrix.op_call true a i j =
      if 0 ≤ i then
        (if i < a.nrows then
          (if 0 ≤ j then
            (if j < a.ncolumns then
              ⟨[Call.nrows, Call.ncolumns, Call.elem i j], Except.ok (a.elem i j)⟩
             else ⟨[Call.nrows, Call.ncolumns], Except.error "Subscripts out of range."⟩)
           else ⟨[Call.nrows], Except.error "Subscripts out of range."⟩)
         else ⟨[Call.nrows], Except.error "Subscripts out of range."⟩)
      else ⟨[], Except.error "Subscripts out of range."⟩ := by
  unfold IRegularMatrix.op_call IRegularMatrix.elem IRegularMatrix.nrows
    IRegularMatrix.ncolumns
  rw [check_subs_then]

theorem op_call_const_true_eq (a : Derived X) (i j : index_t) :
    IRegularMatrix.op_call_const true a i j =
      if 0 ≤ i then
        (if i < a.nrows then
          (if 0 ≤ j then
            (if j < a.ncolumns then
              ⟨[Call.nrows, Call.ncolumns, Call.elem i j], Except.ok (a.elem_const i j)⟩
             else ⟨[Call.nrows, Call.ncolumns], Except.error "Subscripts out of range."⟩)
           else ⟨[Call.nrows], Except.error "Subscripts out of range."⟩)
         else ⟨[Call.nrows], Except.error "Subscripts out of range."⟩)
      else ⟨[], Except.error "Subscripts out of range."⟩ := by
  unfold IRegularMatrix.op_call_const IRegularMatrix.elem_const IRegularMatrix.nrows
    IRegularMatrix.ncolumns
  rw [check_subs_then]

/-- Claim C1. With index checking enabled, `a(i, j)` (mutable and const) ends with the
argument error "Subscripts out of range." exactly when `(i, j)` is not within
`[0, nrows) × [0, ncolumns)`; that error is its only failure; and whenever it does not
fail it returns what `a.elem(i, j)` returns, the concrete type's element. -/
theorem C1_op_call_checked (a : Derived X) (i j : index_t) :
    ((IRegularMatrix.op_call true a i j).result = Except.error "Subscripts out of range."
        ↔ ¬ (0 ≤ i ∧ i < a.nrows ∧ 0 ≤ j ∧ j < a.ncolumns)) ∧
    ((IRegularMatrix.op_call true a i j).failed = true
        ↔ ¬ (0 ≤ i ∧ i < a.nrows ∧ 0 ≤ j ∧ j < a.ncolumns)) ∧
    ((IRegularMatrix.op_call true a i j).failed = false →
        (IRegularMatrix.op_call true a i j).result = (IRegularMatrix.elem a i j).result ∧
        (IRegularMatrix.op_call true a i j).result = Except.ok (a.elem i j)) ∧
    ((IRegularMatrix.op_call_const true a i j).result
          = Except.error "Subscripts out of range."
        ↔ ¬ (0 ≤ i ∧ i < a.nrows ∧ 0 ≤ j ∧ j < a.ncolumns)) ∧
    ((IRegularMatrix.op_call_const true a i j).failed = true
        ↔ ¬ (0 ≤ i ∧ i < a.nrows ∧ 0 ≤ j ∧ j < a.ncolumns)) ∧
    ((IRegularMatrix.op_call_const true a i j).failed = false →
        (IRegularMatrix.op_call_const true a i j).result
          = (IRegularMatrix.elem_const a i j).result ∧
        (IRegularMatrix.op_call_const true a i j).result = Except.ok (a.elem_const i j)) := by
  rw [op_call_true_eq, op_call_const_true_eq]
  by_cases h0 : 0 ≤ i <;> by_cases h1 : i < a.nrows <;> by_cases h2 : 0 ≤ j <;>
    by_cases h3 : j < a.ncolumns <;>
    simp [h0, h1, h2, h3, Run.failed, IRegularMatrix.elem, IRegularMatrix.elem_const,
      derived_call]

/-- Claim C2. With index checking enabled, `ptr_col(j)` (mutable and const) with
`j < 0` or `j >= ncolumns()` ends with the argument error "Index out of range." and the
concrete type's `ptr_col` is never entered; with `0 <= j < ncolumns()` it returns the
concrete type's `ptr_col(j)`. The same for `ptr_row(i)` against `nrows()`. -/
theorem C2_ptr_col_row_checked (a : Derived X) (i j : index_t) :
    (((j < 0 ∨ j ≥ a.ncolumns) →
        (IRegularMatrix.ptr_col true a j).result = Except.error "Index out of range." ∧
        ∀ k, Call.ptr_col k ∉ (IRegularMatrix.ptr_col true a j).calls) ∧
     ((0 ≤ j ∧ j < a.ncolumns) →
        (IRegularMatrix.ptr_col true a j).result = Except.ok (a.ptr_col j))) ∧
    (((j < 0 ∨ j ≥ a.ncolumns) →
        (IRegularMatrix.ptr_col_const true a j).result = Except.error "Index out of range." ∧
        ∀ k, Call.ptr_col k ∉ (IRegularMatrix.ptr_col_const true a j).calls) ∧
     ((0 ≤ j ∧ j < a.ncolumns) →
        (IRegularMatrix.ptr_col_const true a j).result = Except.ok (a.ptr_col_const j))) ∧
    (((i < 0 ∨ i ≥ a.nrows) →
        (IRegularMatrix.ptr_row true a i).result = Except.error "Index out of range." ∧
        ∀ k, Call.ptr_row k ∉ (IRegularMatrix.ptr_row true a i).calls) ∧
     ((0 ≤ i ∧ i < a.nrows) →
        (IRegularMatrix.ptr_row true a i).result = Except.ok (a.ptr_row i))) ∧
    (((i < 0 ∨ i ≥ a.nrows) →
        (IRegularMatrix.ptr_row_const true a i).result = Except.error "Index out of range." ∧
        ∀ k, Call.ptr_row k ∉ (IRegularMatrix.ptr_row_const true a i).calls) ∧
     ((0 ≤ i ∧ i < a.nrows) →
        (IRegularMatrix.ptr_row_const true a i).result = Except.ok (a.ptr_row_const i))) := by
  unfold IRegularMatrix.ptr_col IRegularMatrix.ptr_col_const IRegularMatrix.ptr_row
    IRegularMatrix.ptr_row_const IRegularMatrix.nrows IRegularMatrix.ncolumns
  simp only [check_idx_then]
  by_cases h0 : 0 ≤ j <;> by_cases h1 : j < a.ncolumns <;> by_cases h2 : 0 ≤ i <;>
    by_cases h3 : i < a.nrows <;>
    simp [h0, h1, h2, h3]

/-- Claim C3. With index checking disabled the checked accessors are the unchecked
ones: `a(i, j)` is `a.elem(i, j)`, `ptr_col(j)` and `ptr_row(i)` are the dispatch to the
concrete type's `ptr_col(j)` and `ptr_row(i)` and nothing else (not even `nrows()` or
`ncolumns()` is asked), for every `i`, `j`, and none of them fails. -/
theorem C3_unchecked_accessors (a : Derived X) (i j : index_t) :
    IRegularMatrix.op_call false a i j = IRegularMatrix.elem a i j ∧
    IRegularMatrix.op_call_const false a i j = IRegularMatrix.elem_const a i j ∧
    IRegularMatrix.ptr_col false a j = derived_call (Call.ptr_col j) (a.ptr_col j) ∧
    IRegularMatrix.ptr_col_const false a j
      = derived_call (Call.ptr_col j) (a.ptr_col_const j) ∧
    IRegularMatrix.ptr_row false a i = derived_call (Call.ptr_row i) (a.ptr_row i) ∧
    IRegularMatrix.ptr_row_const false a i
      = derived_call (Call.ptr_row i) (a.ptr_row_const i) ∧
    (IRegularMatrix.op_call false a i j).failed = false ∧
    (IRegularMatrix.op_call_const false a i j).failed = false ∧
    (IRegularMatrix.ptr_col false a j).failed = false ∧
    (IRegularMatrix.ptr_col_const false a j).failed = false ∧
    (IRegularMatrix.ptr_row false a i).failed = false ∧
    (IRegularMatrix.ptr_row_const false a i).failed = false := by
  unfold IRegularMatrix.op_call IRegularMatrix.op_call_const IRegularMatrix.ptr_col
    IRegularMatrix.ptr_col_const IRegularMatrix.ptr_row IRegularMatrix.ptr_row_const
    IRegularMatrix.elem IRegularMatrix.elem_const
  simp only [nocheck_idx_then, nocheck_subs_then]
  simp [derived_call, Run.failed]

/-- Claim C10. With index checking enabled, `column(j)` and `a(range, j)` fail exactly
when `j` is not in `[0, ncolumns())`, `row(i)` and `a(i, range)` exactly when `i` is not in
`[0, nrows())`; a failure is the argument error "Index out of range." and the resolver's
`get` is not entered; otherwise the result is what the resolver's `get` returns for that
index and range. `elem`, `col_begin` / `col_end`, the block `a(row_range, col_range)` and
`diag()` are plain dispatches: they ask nothing else and never fail. -/
theorem C10_axis_views_checked {Range Range0 Range1 : Type} (cw rw_ : axis_view_map X whole)
    (cm rm : axis_view_map X Range) (mm : matview_map X Range0 Range1)
    (dm : diagview_map X) (it : matrix_iter X)
    (a : Derived X) (i j : index_t) (rgn : Range) (row_rgn : Range0) (col_rgn : Range1) :
    (((IRegularMatrix.column true cw a j).failed = true ↔ ¬ (0 ≤ j ∧ j < a.ncolumns)) ∧
     ((IRegularMatrix.column true cw a j).failed = true →
        (IRegularMatrix.column true cw a j).result = Except.error "Index out of range." ∧
        ∀ k, Call.colview_get k ∉ (IRegularMatrix.column true cw a j).calls) ∧
     ((IRegularMatrix.column true cw a j).failed = false →
        (IRegularMatrix.column true cw a j).result = Except.ok (cw.get a j whole.mk))) ∧
    (((IRegularMatrix.column_const true cw a j).failed = true ↔ ¬ (0 ≤ j ∧ j < a.ncolumns)) ∧
     ((IRegularMatrix.column_const true cw a j).failed = true →
        (IRegularMatrix.column_const true cw a j).result = Except.error "Index out of range." ∧
        ∀ k, Call.colview_get k ∉ (IRegularMatrix.column_const true cw a j).calls) ∧
     ((IRegularMatrix.column_const true cw a j).failed = false →
        (IRegularMatrix.column_const true cw a j).result = Except.ok (cw.get_const a j whole.mk))) ∧
    (((IRegularMatrix.op_call_range_col true cm a rgn j).failed = true ↔ ¬ (0 ≤ j ∧ j < a.ncolumns)) ∧
     ((IRegularMatrix.op_call_range_col true cm a rgn j).failed = true →
        (IRegularMatrix.op_call_range_col true cm a rgn j).result = Except.error "Index out of range." ∧
        ∀ k, Call.colview_get k ∉ (IRegularMatrix.op_call_range_col true cm a rgn j).calls) ∧
     ((IRegularMatrix.op_call_range_col true cm a rgn j).failed = false →
        (IRegularMatrix.op_call_range_col true cm a rgn j).result = Except.ok (cm.get a j rgn))) ∧
    (((IRegularMatrix.op_call_range_col_const true cm a rgn j).failed = true ↔ ¬ (0 ≤ j ∧ j < a.ncolumns)) ∧
     ((IRegularMatrix.op_call_range_col_const true cm a rgn j).failed = true →
        (IRegularMatrix.op_call_range_col_const true cm a rgn j).result = Except.error "Index out of range." ∧
        ∀ k, Call.colview_get k ∉ (IRegularMatrix.op_call_range_col_const true cm a rgn j).calls) ∧
     ((IRegularMatrix.op_call_range_col_const true cm a rgn j).failed = false →
        (IRegularMatrix.op_call_range_col_const true cm a rgn j).result = Except.ok (cm.get_const a j rgn))) ∧
    (((IRegularMatrix.row true rw_ a i).failed = true ↔ ¬ (0 ≤ i ∧ i < a.nrows)) ∧
     ((IRegularMatrix.row true rw_ a i).failed = true →
        (IRegularMatrix.row true rw_ a i).result = Except.error "Index out of range." ∧
        ∀ k, Call.rowview_get k ∉ (IRegularMatrix.row true rw_ a i).calls) ∧
     ((IRegularMatrix.row true rw_ a i).failed = false →
        (IRegularMatrix.row true rw_ a i).result = Except.ok (rw_.get a i whole.mk))) ∧
    (((IRegularMatrix.row_const true rw_ a i).failed = true ↔ ¬ (0 ≤ i ∧ i < a.nrows)) ∧
     ((IRegularMatrix.row_const true rw_ a i).failed = true →
        (IRegularMatrix.row_const true rw_ a i).result = Except.error "Index out of range." ∧
        ∀ k, Call.rowview_get k ∉ (IRegularMatrix.row_const true rw_ a i).calls) ∧
     ((IRegularMatrix.row_const true rw_ a i).failed = false →
        (IRegularMatrix.row_const true rw_ a i).result = Except.ok (rw_.get_const a i whole.mk))) ∧
    (((IRegularMatrix.op_call_row_range true rm a i rgn).failed = true ↔ ¬ (0 ≤ i ∧ i < a.nrows)) ∧
     ((IRegularMatrix.op_call_row_range true rm a i rgn).failed = true →
        (IRegularMatrix.op_call_row_range true rm a i rgn).result = Except.error "Index out of range." ∧
        ∀ k, Call.rowview_get k ∉ (IRegularMatrix.op_call_row_range true rm a i rgn).calls) ∧
     ((IRegularMatrix.op_call_row_range true rm a i rgn).failed = false →
        (IRegularMatrix.op_call_row_range true rm a i rgn).result = Except.ok (rm.get a i rgn))) ∧
    (((IRegularMatrix.op_call_row_range_const true rm a i rgn).failed = true ↔ ¬ (0 ≤ i ∧ i < a.nrows)) ∧
     ((IRegularMatrix.op_call_row_range_const true rm a i rgn).failed = true →
        (IRegularMatrix.op_call_row_range_const true rm a i rgn).result = Except.error "Index out of range." ∧
        ∀ k, Call.rowview_get k ∉ (IRegularMatrix.op_call_row_range_const true rm a i rgn).calls) ∧
     ((IRegularMatrix.op_call_row_range_const true rm a i rgn).failed = false →
        (IRegularMatrix.op_call_row_range_const true rm a i rgn).result = Except.ok (rm.get_const a i rgn))) ∧
    (IRegularMatrix.elem a i j = ⟨[Call.elem i j], Except.ok (a.elem i j)⟩ ∧
     IRegularMatrix.elem_const a i j = ⟨[Call.elem i j], Except.ok (a.elem_const i j)⟩ ∧
     IRegularMatrix.col_begin it a j = ⟨[Call.iter_col_begin j], Except.ok (it.col_begin a j)⟩ ∧
     IRegularMatrix.col_end it a j = ⟨[Call.iter_col_end j], Except.ok (it.col_end a j)⟩ ∧
     IRegularMatrix.col_begin_const it a j
       = ⟨[Call.iter_col_begin j], Except.ok (it.col_begin_const a j)⟩ ∧
     IRegularMatrix.col_end_const it a j
       = ⟨[Call.iter_col_end j], Except.ok (it.col_end_const a j)⟩ ∧
     IRegularMatrix.op_call_block mm a row_rgn col_rgn
       = ⟨[Call.matview_get], Except.ok (mm.get a row_rgn col_rgn)⟩ ∧
     IRegularMatrix.op_call_block_const mm a row_rgn col_rgn
       = ⟨[Call.matview_get], Except.ok (mm.get_const a row_rgn col_rgn)⟩ ∧
     IRegularMatrix.diag dm a = ⟨[Call.diagview_get], Except.ok (dm.get a)⟩ ∧
     IRegularMatrix.diag_const dm a = ⟨[Call.diagview_get], Except.ok (dm.get_const a)⟩) := by
  unfold IRegularMatrix.column IRegularMatrix.column_const IRegularMatrix.op_call_range_col
    IRegularMatrix.op_call_range_col_const IRegularMatrix.row IRegularMatrix.row_const
    IRegularMatrix.op_call_row_range IRegularMatrix.op_call_row_range_const
    IRegularMatrix.nrows IRegularMatrix.ncolumns
  simp only [check_idx_then]
  refine ⟨?_, ?_, ?_, ?_, ?_, ?_, ?_, ?_, ?_⟩
  · by_cases h0 : 0 ≤ j <;> by_cases h1 : j < a.ncolumns <;> simp [h0, h1, Run.failed]
  · by_cases h0 : 0 ≤ j <;> by_cases h1 : j < a.ncolumns <;> simp [h0, h1, Run.failed]
  · by_cases h0 : 0 ≤ j <;> by_cases h1 : j < a.ncolumns <;> simp [h0, h1, Run.failed]
  · by_cases h0 : 0 ≤ j <;> by_cases h1 : j < a.ncolumns <;> simp [h0, h1, Run.failed]
  · by_cases h0 : 0 ≤ i <;> by_cases h1 : i < a.nrows <;> simp [h0, h1, Run.failed]
  · by_cases h0 : 0 ≤ i <;> by_cases h1 : i < a.nrows <;> simp [h0, h1, Run.failed]
  · by_cases h0 : 0 ≤ i <;> by_cases h1 : i < a.nrows <;> simp [h0, h1, Run.failed]
  · by_cases h0 : 0 ≤ i <;> by_cases h1 : i < a.nrows <;> simp [h0, h1, Run.failed]
  · simp [IRegularMatrix.elem, IRegularMatrix.elem_const, IRegularMatrix.col_begin,
      IRegularMatrix.col_end, IRegularMatrix.col_begin_const, IRegularMatrix.col_end_const,
      IRegularMatrix.op_call_block, IRegularMatrix.op_call_block_const, IRegularMatrix.diag,
      IRegularMatrix.diag_const, derived_call]

end Checked

section Expressions

/-- Claim C4. An expression built from a shape `(m, n)` through `matrix_xpr_base` or
`ewise_matrix_base` (either constructor) has `nrows() == m`, `ncolumns() == n` and
`nelems() == nrows() * ncolumns()`, on the base and seen through `IMatrixXpr`; a concrete
matrix holding the shape answers the same through `IRegularMatrix`. It holds for all
integers `m`, `n`, in particular for `m, n >= 0`. -/
theorem C4_shape_queries (m n : index_t) (data : pointer) (rs cs : index_t) :
    ((matrix_xpr_base.ctor m n).nrows = m ∧
     (matrix_xpr_base.ctor m n).ncolumns = n ∧
     (matrix_xpr_base.ctor m n).nelems
       = (matrix_xpr_base.ctor m n).nrows * (matrix_xpr_base.ctor m n).ncolumns ∧
     matrix_xpr_base.ctor_shape ⟨m, n⟩ = matrix_xpr_base.ctor m n ∧
     (IMatrixXpr.nrows (matrix_xpr_base.ctor m n).derived).result = Except.ok m ∧
     (IMatrixXpr.ncolumns (matrix_xpr_base.ctor m n).derived).result = Except.ok n ∧
     (IMatrixXpr.nelems (matrix_xpr_base.ctor m n).derived).result = Except.ok (m * n)) ∧
    ((ewise_matrix_base.ctor m n).nrows = m ∧
     (ewise_matrix_base.ctor m n).ncolumns = n ∧
     (ewise_matrix_base.ctor m n).nelems
       = (ewise_matrix_base.ctor m n).nrows * (ewise_matrix_base.ctor m n).ncolumns ∧
     ewise_matrix_base.ctor_shape ⟨m, n⟩ = ewise_matrix_base.ctor m n ∧
     (IMatrixXpr.nrows (ewise_matrix_base.ctor m n).derived).result = Except.ok m ∧
     (IMatrixXpr.ncolumns (ewise_matrix_base.ctor m n).derived).result = Except.ok n ∧
     (IMatrixXpr.nelems (ewise_matrix_base.ctor m n).derived).result = Except.ok (m * n)) ∧
    ((IRegularMatrix.nrows (regular_view.mk data ⟨m, n⟩ rs cs).derived).result = Except.ok m ∧
     (IRegularMatrix.ncolumns (regular_view.mk data ⟨m, n⟩ rs cs).derived).result
       = Except.ok n ∧
     (IRegularMatrix.nelems (regular_view.mk data ⟨m, n⟩ rs cs).derived).result
       = Except.ok (m * n)) := by
  refine ⟨⟨rfl, rfl, rfl, rfl, rfl, rfl, rfl⟩, ⟨rfl, rfl, rfl, rfl, rfl, rfl, rfl⟩, rfl, rfl, rfl⟩

/-- Claim C5. The unary-adaptor base `sarg_matrix_xpr_base` built on an argument
expression answers `nelems()`, `nrows()`, `ncolumns()` and `shape()` with the argument's
answers, on the base and seen through `IMatrixXpr`, and `arg()` returns the argument it
was built from. -/
theorem C5_sarg_forwards {S : Type} (arg : XprDerived S) :
    (sarg_matrix_xpr_base.ctor arg).nelems = arg.nelems ∧
    (sarg_matrix_xpr_base.ctor arg).nrows = arg.nrows ∧
    (sarg_matrix_xpr_base.ctor arg).ncolumns = arg.ncolumns ∧
    (sarg_matrix_xpr_base.ctor arg).shape = arg.shape ∧
    (sarg_matrix_xpr_base.ctor arg).arg = arg ∧
    IMatrixXpr.nelems (sarg_matrix_xpr_base.ctor arg).derived = IMatrixXpr.nelems arg ∧
    IMatrixXpr.nrows (sarg_matrix_xpr_base.ctor arg).derived = IMatrixXpr.nrows arg ∧
    IMatrixXpr.ncolumns (sarg_matrix_xpr_base.ctor arg).derived = IMatrixXpr.ncolumns arg ∧
    IMatrixXpr.shape (sarg_matrix_xpr_base.ctor arg).derived = IMatrixXpr.shape arg := by
  refine ⟨rfl, rfl, rfl, rfl, rfl, rfl, rfl, rfl, rfl⟩

end Expressions

section Views

/-- The checked subscript access of a concrete matrix at a valid position. -/
theorem op_call_view_in_range (v : regular_view) (i j : index_t)
    (hi0 : 0 ≤ i) (hi1 : i < v.shape.m) (hj0 : 0 ≤ j) (hj1 : j < v.shape.n) :
    IRegularMatrix.op_call true v.derived i j =
      ⟨[Call.nrows, Call.ncolumns, Call.elem i j],
        Except.ok (v.data.add (i * v.rstride + j * v.cstride))⟩ := by
  rw [op_call_true_eq]
  simp [regular_view.derived, matrix_shape.nrows, matrix_shape.ncolumns, hi0, hi1, hj0, hj1]

/-- Claim C8. For a concrete matrix `A` of shape `(m, n)` and contiguous ranges
`[r0, r1)`, `[c0, c1)` with `0 <= r0 <= r1 <= m`, `0 <= c0 <= c1 <= n`, the block view
`B = A(row_range, col_range)` (mutable and const) has shape `(r1 - r0, c1 - c0)` and, for
all valid `r`, `c`, `B(r, c)` succeeds and is the very element `A(r0 + r, c0 + c)`. For a
valid `j`, the column view `A.column(j)` has `m` elements in one column and, for all valid
`i`, its `i`-th element is the very element `A(i, j)`. -/
theorem C8_block_and_column_views (A : regular_view) (r0 r1 c0 c1 j : index_t)
    (hr0 : 0 ≤ r0) (_hr : r0 ≤ r1) (hr1 : r1 ≤ A.shape.m)
    (hc0 : 0 ≤ c0) (_hc : c0 ≤ c1) (hc1 : c1 ≤ A.shape.n) :
    (∃ B : regular_view,
      (IRegularMatrix.op_call_block matview_range A.derived ⟨r0, r1⟩ ⟨c0, c1⟩).result
        = Except.ok B ∧
      (IRegularMatrix.op_call_block_const matview_range A.derived ⟨r0, r1⟩ ⟨c0, c1⟩).result
        = Except.ok B ∧
      (IRegularMatrix.nrows B.derived).result = Except.ok (r1 - r0) ∧
      (IRegularMatrix.ncolumns B.derived).result = Except.ok (c1 - c0) ∧
      ∀ r c : index_t, 0 ≤ r → r < r1 - r0 → 0 ≤ c → c < c1 - c0 →
        (IRegularMatrix.op_call true B.derived r c).failed = false ∧
        (IRegularMatrix.op_call true B.derived r c).result
          = (IRegularMatrix.op_call true A.derived (r0 + r) (c0 + c)).result) ∧
    (0 ≤ j → j < A.shape.n →
      ∃ V : regular_view,
        (IRegularMatrix.column true colview_whole A.derived j).result = Except.ok V ∧
        (IRegularMatrix.column_const true colview_whole A.derived j).result = Except.ok V ∧
        (IRegularMatrix.nrows V.derived).result = Except.ok A.shape.m ∧
        (IRegularMatrix.ncolumns V.derived).result = Except.ok 1 ∧
        (IRegularMatrix.nelems V.derived).result = Except.ok A.shape.m ∧
        ∀ i : index_t, 0 ≤ i → i < A.shape.m →
          (IRegularMatrix.op_call true V.derived i 0).failed = false ∧
          (IRegularMatrix.op_call true V.derived i 0).result
            = (IRegularMatrix.op_call true A.derived i j).result) := by
  constructor
  · refine ⟨⟨A.data.add (r0 * A.rstride + c0 * A.cstride), ⟨r1 - r0, c1 - c0⟩,
      A.rstride, A.cstride⟩, rfl, rfl, rfl, rfl, ?_⟩
    intro r c h1 h2 h3 h4
    rw [op_call_view_in_range _ r c h1 h2 h3 h4,
      op_call_view_in_range A (r0 + r) (c0 + c) (by linarith) (by linarith) (by linarith)
        (by linarith)]
    refine ⟨rfl, ?_⟩
    simp only [pointer.add, Except.ok.injEq, pointer.mk.injEq, true_and]
    ring
  · intro hj0 hj1
    refine ⟨vector_view (A.data.add (j * A.cstride)) A.shape.m A.rstride, ?_, ?_, rfl, rfl, ?_, ?_⟩
    · unfold IRegularMatrix.column IRegularMatrix.ncolumns
      rw [check_idx_then]
      simp [regular_view.derived, matrix_shape.ncolumns, matrix_shape.nrows, colview_whole,
        hj0, hj1]
    · unfold IRegularMatrix.column_const IRegularMatrix.ncolumns
      rw [check_idx_then]
      simp [regular_view.derived, matrix_shape.ncolumns, matrix_shape.nrows, colview_whole,
        hj0, hj1]
    · simp [IRegularMatrix.nelems, derived_call, regular_view.derived, vector_view,
        matrix_shape.nelems]
    · intro i hi0 hi1
      have h1 : (0 : index_t) < (vector_view (A.data.add (j * A.cstride)) A.shape.m
          A.rstride).shape.n := by simp [vector_view]
      rw [op_call_view_in_range (vector_view (A.data.add (j * A.cstride)) A.shape.m A.rstride)
          i 0 hi0 hi1 (le_refl 0) h1,
        op_call_view_in_range A i j hi0 hi1 hj0 hj1]
      refine ⟨rfl, ?_⟩
      simp only [vector_view, pointer.add, Except.ok.injEq, pointer.mk.injEq, true_and]
      ring

/-- Claim C9. For a square concrete matrix `A` of size `k`, `A.diag()` (mutable and
const) is a vector view of `k` elements in one column and, for every `i` in `[0, k)`,
its `i`-th element is the very element `A(i, i)`. -/
theorem C9_diag_view (A : regular_view) (k : index_t)
    (hm : A.shape.m = k) (hn : A.shape.n = k) :
    ∃ D : regular_view,
      (IRegularMatrix.diag diagview A.derived).result = Except.ok D ∧
      (IRegularMatrix.diag_const diagview A.derived).result = Except.ok D ∧
      (IRegularMatrix.nrows D.derived).result = Except.ok k ∧
      (IRegularMatrix.ncolumns D.derived).result = Except.ok 1 ∧
      (IRegularMatrix.nelems D.derived).result = Except.ok k ∧
      ∀ i : index_t, 0 ≤ i → i < k →
        (IRegularMatrix.op_call true D.derived i 0).failed = false ∧
        (IRegularMatrix.op_call true D.derived i 0).result
          = (IRegularMatrix.op_call true A.derived i i).result := by
  refine ⟨vector_view A.data k (A.rstride + A.cstride), ?_, ?_, rfl, rfl, ?_, ?_⟩
  · simp [IRegularMatrix.diag, derived_call, diagview, regular_view.derived,
      matrix_shape.nrows, matrix_shape.ncolumns, hm, hn]
  · simp [IRegularMatrix.diag_const, derived_call, diagview, regular_view.derived,
      matrix_shape.nrows, matrix_shape.ncolumns, hm, hn]
  · simp [IRegularMatrix.nelems, derived_call, regular_view.derived, vector_view,
      matrix_shape.nelems]
  · intro i hi0 hi1
    have h1 : (0 : index_t) < (vector_view A.data k (A.rstride + A.cstride)).shape.n := by
      simp [vector_view]
    have h2 : i < (vector_view A.data k (A.rstride + A.cstride)).shape.m := by
      simpa [vector_view] using hi1
    rw [op_call_view_in_range (vector_view A.data k (A.rstride + A.cstride))
          i 0 hi0 h2 (le_refl 0) h1,
      op_call_view_in_range A i i hi0 (by rw [hm]; exact hi1) hi0 (by rw [hn]; exact hi1)]
    refine ⟨rfl, ?_⟩
    simp only [vector_view, pointer.add, Except.ok.injEq, pointer.mk.injEq, true_and]
    ring

/-- Witness for C8 on the spec's scenario: the 4×5 matrix, rows `[1, 3)`, columns
`[1, 4)`, and column 2. -/
theorem C8_block_and_column_views_witness :
    ((0 : index_t) ≤ 1 ∧ (1 : index_t) ≤ 3 ∧ (3 : index_t) ≤ example_4x5.shape.m ∧
      (0 : index_t) ≤ 1 ∧ (1 : index_t) ≤ 4 ∧ (4 : index_t) ≤ example_4x5.shape.n) ∧
    ((∃ B : regular_view,
      (IRegularMatrix.op_call_block matview_range example_4x5.derived ⟨(1 : index_t), (3 : index_t)⟩ ⟨(1 : index_t), (4 : index_t)⟩).result
        = Except.ok B ∧
      (IRegularMatrix.op_call_block_const matview_range example_4x5.derived ⟨(1 : index_t), (3 : index_t)⟩ ⟨(1 : index_t), (4 : index_t)⟩).result
        = Except.ok B ∧
      (IRegularMatrix.nrows B.derived).result = Except.ok ((3 : index_t) - (1 : index_t)) ∧
      (IRegularMatrix.ncolumns B.derived).result = Except.ok ((4 : index_t) - (1 : index_t)) ∧
      ∀ r c : index_t, 0 ≤ r → r < (3 : index_t) - (1 : index_t) → 0 ≤ c → c < (4 : index_t) - (1 : index_t) →
        (IRegularMatrix.op_call true B.derived r c).failed = false ∧
        (IRegularMatrix.op_call true B.derived r c).result
          = (IRegularMatrix.op_call true example_4x5.derived ((1 : index_t) + r) ((1 : index_t) + c)).result) ∧
    (0 ≤ (2 : index_t) → (2 : index_t) < example_4x5.shape.n →
      ∃ V : regular_view,
        (IRegularMatrix.column true colview_whole example_4x5.derived (2 : index_t)).result = Except.ok V ∧
        (IRegularMatrix.column_const true colview_whole example_4x5.derived (2 : index_t)).result = Except.ok V ∧
        (IRegularMatrix.nrows V.derived).result = Except.ok example_4x5.shape.m ∧
        (IRegularMatrix.ncolumns V.derived).result = Except.ok 1 ∧
        (IRegularMatrix.nelems V.derived).result = Except.ok example_4x5.shape.m ∧
        ∀ i : index_t, 0 ≤ i → i < example_4x5.shape.m →
          (IRegularMatrix.op_call true V.derived i 0).failed = false ∧
          (IRegularMatrix.op_call true V.derived i 0).result
            = (IRegularMatrix.op_call true example_4x5.derived i (2 : index_t)).result)) :=
  ⟨⟨by decide, by decide, by decide, by decide, by decide, by decide⟩,
    C8_block_and_column_views example_4x5 1 3 1 4 2 (by decide) (by decide) (by decide)
      (by decide) (by decide) (by decide)⟩

/-- Witness for C9 on a square 3×3 matrix with a leading dimension of 5. -/
theorem C9_diag_view_witness :
    (example_3x3.shape.m = 3 ∧ example_3x3.shape.n = 3) ∧
    (∃ D : regular_view,
      (IRegularMatrix.diag diagview example_3x3.derived).result = Except.ok D ∧
      (IRegularMatrix.diag_const diagview example_3x3.derived).result = Except.ok D ∧
      (IRegularMatrix.nrows D.derived).result = Except.ok (3 : index_t) ∧
      (IRegularMatrix.ncolumns D.derived).result = Except.ok 1 ∧
      (IRegularMatrix.nelems D.derived).result = Except.ok (3 : index_t) ∧
      ∀ i : index_t, 0 ≤ i → i < (3 : index_t) →
        (IRegularMatrix.op_call true D.derived i 0).failed = false ∧
        (IRegularMatrix.op_call true D.derived i 0).result
          = (IRegularMatrix.op_call true example_3x3.derived i i).result) :=
  ⟨⟨rfl, rfl⟩, C9_diag_view example_3x3 3 rfl rfl⟩

end Views

section Iteration

theorem pointer_add_zero (p : pointer) : p.add 0 = p := by
  cases p
  simp [pointer.add]

theorem pointer_add_add (p : pointer) (a b : index_t) : (p.add a).add b = p.add (a + b) := by
  cases p
  simp [pointer.add, add_assoc]

theorem iterate_same (fuel : Nat) (p : pointer) : iterate fuel p p = some [] := by
  cases fuel <;> simp [iterate]

/-- The flat pointer loop over `count` elements terminates within `count` steps and
visits the addresses `p, p + 1, ..., p + count - 1` in this order. -/
theorem iterate_flat (count : Nat) :
    ∀ (fuel : Nat) (p : pointer), count ≤ fuel →
      iterate fuel p (p.add (count : Int))
        = some ((List.range count).map (fun k : Nat => p.add (k : Int))) := by
  induction count with
  | zero =>
    intro fuel p _
    simp only [Nat.cast_zero, List.range_zero, List.map_nil]
    rw [pointer_add_zero]
    exact iterate_same fuel p
  | succ c ih =>
    intro fuel p hfuel
    obtain ⟨f, rfl⟩ : ∃ f, fuel = f + 1 := ⟨fuel - 1, by omega⟩
    have hne : p ≠ p.add ((c + 1 : Nat) : Int) := by
      intro h
      have h2 := congrArg pointer.offset h
      simp only [pointer.add] at h2
      simp only [index_t] at h2
      omega
    have hstep : p.add ((c + 1 : Nat) : Int) = (p.add 1).add (c : Int) := by
      rw [pointer_add_add]
      congr 1
      push_cast
      ring
    simp only [iterate, hne, if_false]
    rw [hstep, ih f (p.add 1) (by omega)]
    simp only [Option.map_some', List.range_succ_eq_map, List.map_cons, List.map_map,
      Nat.cast_zero, pointer_add_zero, Option.some.injEq, List.cons.injEq, true_and]
    apply List.map_congr_left
    intro k _
    simp only [Function.comp, pointer_add_add]
    congr 1
    push_cast
    ring

/-- Claim C7. For a contiguous concrete matrix `X` of shape `(m, n)`, `m, n >= 0`, the
loop from `X.begin()` to `X.end()` (member or free function, mutable or const) ends,
given at least `nelems()` steps, having visited exactly `X.nelems()` elements, and the
`k`-th element visited is the very element `X(k mod m, k div m)`, the column-major order. -/
theorem C7_contiguous_iteration (X : regular_view)
    (hc : X.derived.is_contiguous = true) (hm : 0 ≤ X.shape.m) (hn : 0 ≤ X.shape.n) :
    ∃ (first last : pointer) (visited : List pointer),
      (IRegularMatrix.begin_ contiguous_iter X.derived).result = Except.ok first ∧
      (IRegularMatrix.end_ contiguous_iter X.derived).result = Except.ok last ∧
      (IRegularMatrix.begin_const contiguous_iter X.derived).result = Except.ok first ∧
      (IRegularMatrix.end_const contiguous_iter X.derived).result = Except.ok last ∧
      (begin_ contiguous_iter X.derived).result = Except.ok first ∧
      (end_ contiguous_iter X.derived).result = Except.ok last ∧
      (begin_const contiguous_iter X.derived).result = Except.ok first ∧
      (end_const contiguous_iter X.derived).result = Except.ok last ∧
      (∀ fuel : Nat, X.derived.nelems.toNat ≤ fuel →
        iterate fuel first last = some visited) ∧
      (IRegularMatrix.nelems X.derived).result = Except.ok (visited.length : Int) ∧
      ∀ (k : Nat) (p : pointer), visited.get? k = some p →
        (IRegularMatrix.op_call true X.derived ((k : Int) % X.shape.m)
          ((k : Int) / X.shape.m)).result = Except.ok p := by
  have hmn : (0 : Int) ≤ X.shape.m * X.shape.n := mul_nonneg hm hn
  have hcast : (((X.shape.m * X.shape.n).toNat : Nat) : Int) = X.shape.m * X.shape.n :=
    Int.toNat_of_nonneg hmn
  have hs : X.rstride = 1 ∧ X.cstride = X.shape.m := by
    simpa [regular_view.derived, matrix_shape.nrows] using hc
  refine ⟨X.data, X.data.add (X.shape.m * X.shape.n),
    (List.range (X.shape.m * X.shape.n).toNat).map (fun k : Nat => X.data.add (k : Int)),
    rfl, rfl, rfl, rfl, rfl, rfl, rfl, rfl, ?_, ?_, ?_⟩
  · intro fuel hfuel
    have h := iterate_flat (X.shape.m * X.shape.n).toNat fuel X.data hfuel
    rw [hcast] at h
    exact h
  · simp only [IRegularMatrix.nelems, derived_call, regular_view.derived, matrix_shape.nelems,
      List.length_map, List.length_range, hcast]
  · intro k p hk
    have hlt : k < (X.shape.m * X.shape.n).toNat := by
      have := List.get?_eq_some.mp hk
      obtain ⟨h1, _⟩ := this
      simpa using h1
    have hp : p = X.data.add (k : Int) := by
      rw [List.get?_eq_getElem?, List.getElem?_map, List.getElem?_range hlt] at hk
      simpa using hk.symm
    have hkI : (k : Int) < X.shape.m * X.shape.n := by
      rw [← hcast]
      exact_mod_cast hlt
    have hk0 : (0 : Int) ≤ (k : Int) := Int.natCast_nonneg k
    have hmpos : (0 : Int) < X.shape.m := by
      rcases lt_or_eq_of_le hm with h | h
      · exact h
      · exfalso
        rw [← h] at hkI
        simp only [zero_mul] at hkI
        simp only [index_t] at *
        omega
    have h1 : (0 : Int) ≤ (k : Int) % X.shape.m := Int.emod_nonneg _ (ne_of_gt hmpos)
    have h2 : (k : Int) % X.shape.m < X.shape.m := Int.emod_lt_of_pos _ hmpos
    have h3 : (0 : Int) ≤ (k : Int) / X.shape.m := Int.ediv_nonneg hk0 hm
    have h4 : (k : Int) / X.shape.m < X.shape.n := Int.ediv_lt_of_lt_mul hmpos (by
      rw [mul_comm]; exact hkI)
    rw [op_call_view_in_range X _ _ h1 h2 h3 h4, hp, hs.1, hs.2]
    simp only [Except.ok.injEq]
    congr 1
    have := Int.emod_add_ediv (k : Int) X.shape.m
    rw [mul_one, mul_comm]
    exact this

/-- Witness for C7 on the packed 4×5 matrix: 20 elements, column after column. -/
theorem C7_contiguous_iteration_witness :
    (example_4x5.derived.is_contiguous = true ∧ (0 : index_t) ≤ example_4x5.shape.m ∧
      (0 : index_t) ≤ example_4x5.shape.n) ∧
    (∃ (first last : pointer) (visited : List pointer),
      (IRegularMatrix.begin_ contiguous_iter example_4x5.derived).result = Except.ok first ∧
      (IRegularMatrix.end_ contiguous_iter example_4x5.derived).result = Except.ok last ∧
      (IRegularMatrix.begin_const contiguous_iter example_4x5.derived).result = Except.ok first ∧
      (IRegularMatrix.end_const contiguous_iter example_4x5.derived).result = Except.ok last ∧
      (begin_ contiguous_iter example_4x5.derived).result = Except.ok first ∧
      (end_ contiguous_iter example_4x5.derived).result = Except.ok last ∧
      (begin_const contiguous_iter example_4x5.derived).result = Except.ok first ∧
      (end_const contiguous_iter example_4x5.derived).result = Except.ok last ∧
      (∀ fuel : Nat, example_4x5.derived.nelems.toNat ≤ fuel →
        iterate fuel first last = some visited) ∧
      (IRegularMatrix.nelems example_4x5.derived).result = Except.ok (visited.length : Int) ∧
      ∀ (k : Nat) (p : pointer), visited.get? k = some p →
        (IRegularMatrix.op_call true example_4x5.derived ((k : Int) % example_4x5.shape.m)
          ((k : Int) / example_4x5.shape.m)).result = Except.ok p) :=
  ⟨⟨by decide, by decide, by decide⟩,
    C7_contiguous_iteration example_4x5 (by decide) (by decide) (by decide)⟩

end Iteration

section Materialization

variable {T : Type}

/-- The copy loop succeeds when every read does, and then holds the values read. -/
theorem gather_spec (src : Nat → Option T) :
    ∀ count : Nat, (∀ k, k < count → ∃ v, src k = some v) →
      ∃ l : List T, gather src count = some l ∧ l.length = count ∧
        ∀ k, k < count → l.get? k = src k := by
  intro count
  induction count with
  | zero =>
    intro _
    exact ⟨[], rfl, rfl, fun k hk => absurd hk (Nat.not_lt_zero k)⟩
  | succ c ih =>
    intro h
    obtain ⟨l, hl, hlen, hget⟩ := ih (fun k hk => h k (Nat.lt_succ_of_lt hk))
    obtain ⟨v, hv⟩ := h c (Nat.lt_succ_self c)
    refine ⟨l ++ [v], ?_, ?_, ?_⟩
    · simp [gather, hl, hv]
    · simp [hlen]
    · intro k hk
      rcases Nat.lt_succ_iff_lt_or_eq.mp hk with hlt | heq
      · rw [List.get?_eq_getElem?, List.getElem?_append_left (by omega),
          ← List.get?_eq_getElem?]
        exact hget k hlt
      · subst heq
        rw [List.get?_eq_getElem?, List.getElem?_append_right (by omega), hv]
        simp [hlen]

/-- Adding a buffer leaves the old addresses readable as before. -/
theorem load_append_old (mem : Memory T) (buf : List T) (p : pointer)
    (h : p.block < mem.length) : Memory.load (mem ++ [buf]) p = Memory.load mem p := by
  unfold Memory.load
  rw [List.get?_eq_getElem?, List.get?_eq_getElem?, List.getElem?_append_left h]

/-- Reading in the buffer just added. -/
theorem load_append_new (mem : Memory T) (buf : List T) (k : Nat) :
    Memory.load (mem ++ [buf]) ⟨mem.length, (k : Int)⟩ = buf.get? k := by
  unfold Memory.load
  rw [List.get?_eq_getElem?, List.getElem?_append_right (le_refl _)]
  simp

/-- Position `k` of a packed column-major run of `m × n` elements is a valid subscript
pair `(k mod m, k div m)`. -/
theorem colmajor_subscript (m n : Int) (k : Nat) (hm : 0 ≤ m) (hk : (k : Int) < m * n) :
    0 ≤ (k : Int) % m ∧ (k : Int) % m < m ∧ 0 ≤ (k : Int) / m ∧ (k : Int) / m < n := by
  have hk0 : (0 : Int) ≤ (k : Int) := Int.natCast_nonneg k
  have hmpos : (0 : Int) < m := by
    rcases lt_or_eq_of_le hm with h | h
    · exact h
    · exfalso
      rw [← h] at hk
      simp only [zero_mul] at hk
      omega
  exact ⟨Int.emod_nonneg _ (ne_of_gt hmpos), Int.emod_lt_of_pos _ hmpos,
    Int.ediv_nonneg hk0 hm, Int.ediv_lt_of_lt_mul hmpos (by rw [mul_comm]; exact hk)⟩

/-- A valid subscript pair `(i, j)` is position `i + j * m` of the packed run. -/
theorem colmajor_position (m n i j : Int) (hi0 : 0 ≤ i) (hi1 : i < m) (hj0 : 0 ≤ j)
    (hj1 : j < n) :
    0 ≤ i + j * m ∧ i + j * m < m * n ∧ (i + j * m) % m = i ∧ (i + j * m) / m = j := by
  have hmpos : (0 : Int) < m := lt_of_le_of_lt hi0 hi1
  have h1 : 0 ≤ j * m := mul_nonneg hj0 (le_of_lt hmpos)
  have hj2 : j ≤ n - 1 := by omega
  have h2 : j * m ≤ (n - 1) * m := mul_le_mul_of_nonneg_right hj2 (le_of_lt hmpos)
  refine ⟨by omega, by nlinarith, ?_, ?_⟩
  · rw [Int.add_mul_emod_self]
    exact Int.emod_eq_of_lt hi0 hi1
  · rw [Int.add_mul_ediv_right _ _ (ne_of_gt hmpos), Int.ediv_eq_zero_of_lt hi0 hi1]
    simp

/-- The element address of a source matrix: `i` elements down column `j`, columns
`ldim` apart. -/
theorem eval_source_elem (s : eval_source) (i j : index_t) :
    s.view.derived.elem_const i j = s.view.data.add (i + j * s.ldim) ∧
    s.view.derived.elem i j = s.view.data.add (i + j * s.ldim) ∧
    s.view.rstride = 1 ∧ s.view.cstride = s.ldim := by
  cases s <;>
    simp [eval_source.view, eval_source.ldim, regular_view.derived, dense_matrix.view,
      ref_matrix.view, ref_matrix_ex.view]

/-- Every element of a source matrix whose storage fits can be read. -/
theorem fits_load (mem : Memory T) (s : eval_source) (hl : s.view.shape.m ≤ s.ldim)
    (hfit : s.fits mem = true) (i j : index_t)
    (hi0 : 0 ≤ i) (hi1 : i < s.view.shape.m) (hj0 : 0 ≤ j) (hj1 : j < s.view.shape.n) :
    s.view.data.block < mem.length ∧
    ∃ v, Memory.load mem (s.view.data.add (i + j * s.ldim)) = some v := by
  unfold eval_source.fits at hfit
  rw [List.get?_eq_getElem?] at hfit
  cases hb : mem[s.view.data.block]? with
  | none => simp [hb] at hfit
  | some buf =>
    simp only [hb, decide_eq_true_eq] at hfit
    obtain ⟨hoff, hext⟩ := hfit
    have hblock : s.view.data.block < mem.length := (List.getElem?_eq_some_iff.mp hb).1
    refine ⟨hblock, ?_⟩
    have hl0 : 0 ≤ s.ldim := by linarith
    have hj2 : j ≤ s.view.shape.n - 1 := by linarith [Int.le_sub_one_of_lt hj1]
    have h1 : 0 ≤ j * s.ldim := mul_nonneg hj0 hl0
    have h2 : j * s.ldim ≤ (s.view.shape.n - 1) * s.ldim :=
      mul_le_mul_of_nonneg_right hj2 hl0
    have hi2 : i ≤ s.view.shape.m - 1 := Int.le_sub_one_of_lt hi1
    have hlen : s.view.data.offset + (i + j * s.ldim) < (buf.length : Int) := by
      rcases hext with h | h | h
      · rw [h] at hi1
        linarith
      · rw [h] at hj1
        linarith
      · linarith
    have hpos : 0 ≤ s.view.data.offset + (i + j * s.ldim) := by linarith
    have hnat : (s.view.data.offset + (i + j * s.ldim)).toNat < buf.length :=
      (Int.toNat_lt hpos).mpr hlen
    refine ⟨buf.get ⟨_, hnat⟩, ?_⟩
    simp only [Memory.load, pointer.add, List.get?_eq_getElem?, hb, hpos, if_true]
    exact List.getElem?_eq_getElem hnat

/-- A source matrix whose storage fits refers to a live buffer. -/
theorem fits_block (mem : Memory T) (s : eval_source) (hfit : s.fits mem = true) :
    s.view.data.block < mem.length := by
  unfold eval_source.fits at hfit
  rw [List.get?_eq_getElem?] at hfit
  cases hb : mem[s.view.data.block]? with
  | none => simp [hb] at hfit
  | some buf => exact (List.getElem?_eq_some_iff.mp hb).1

/-- Claim C6. For a source matrix `A` of shape `(m, n)`, `m, n >= 0`, that is a dense
matrix, a reference matrix over a packed buffer or a reference matrix with leading
dimension `ldim >= m`, and whose storage holds its elements, `eval(A)` returns a dense
matrix `R` with `R.nrows() == m`, `R.ncolumns() == n`, `R.ptr_data() != A.ptr_data()`, and
for all valid `(i, j)` both `R(i, j)` and `A(i, j)` succeed and hold the same value after
the evaluation, the value `A(i, j)` held before it. -/
theorem C6_eval_round_trip (mem : Memory T) (s : eval_source)
    (hm : 0 ≤ s.view.shape.m) (hn : 0 ≤ s.view.shape.n) (hl : s.view.shape.m ≤ s.ldim)
    (hfit : s.fits mem = true) :
    ∃ (mem2 : Memory T) (R : dense_matrix),
      eval mem s.view.derived = some (mem2, R) ∧
      (IRegularMatrix.nrows R.view.derived).result = Except.ok s.view.shape.m ∧
      (IRegularMatrix.ncolumns R.view.derived).result = Except.ok s.view.shape.n ∧
      (IRegularMatrix.ptr_data R.view.derived).result
        ≠ (IRegularMatrix.ptr_data s.view.derived).result ∧
      (IRegularMatrix.ptr_data_const R.view.derived).result
        ≠ (IRegularMatrix.ptr_data_const s.view.derived).result ∧
      ∀ i j : index_t, 0 ≤ i → i < s.view.shape.m → 0 ≤ j → j < s.view.shape.n →
        ∃ (p q : pointer) (v : T),
          (IRegularMatrix.op_call true R.view.derived i j).result = Except.ok p ∧
          (IRegularMatrix.op_call true s.view.derived i j).result = Except.ok q ∧
          Memory.load mem2 p = some v ∧ Memory.load mem2 q = some v ∧
          Memory.load mem q = some v := by
  have hmn : (0 : Int) ≤ s.view.shape.m * s.view.shape.n := mul_nonneg hm hn
  have hcast : (((s.view.shape.m * s.view.shape.n).toNat : Nat) : Int)
      = s.view.shape.m * s.view.shape.n := Int.toNat_of_nonneg hmn
  have hblock := fits_block mem s hfit
  have hsrc : ∀ k : Nat, k < (s.view.shape.m * s.view.shape.n).toNat →
      ∃ v, (fun k : Nat => Memory.load mem (s.view.derived.elem_const
        ((k : Int) % s.view.shape.m) ((k : Int) / s.view.shape.m))) k = some v := by
    intro k hk
    have hkI : (k : Int) < s.view.shape.m * s.view.shape.n := by
      rw [← hcast]
      exact_mod_cast hk
    obtain ⟨a1, a2, a3, a4⟩ := colmajor_subscript _ _ k hm hkI
    simp only [(eval_source_elem s _ _).1]
    exact (fits_load mem s hl hfit _ _ a1 a2 a3 a4).2
  obtain ⟨buf, hbuf, hlen, hget⟩ := gather_spec _ _ hsrc
  refine ⟨mem ++ [buf], ⟨⟨mem.length, 0⟩, s.view.shape.m, s.view.shape.n⟩, ?_, rfl, rfl,
    ?_, ?_, ?_⟩
  · unfold eval
    have e1 : s.view.derived.nrows = s.view.shape.m := rfl
    have e2 : s.view.derived.ncolumns = s.view.shape.n := rfl
    rw [e1, e2, hbuf]
  · intro h
    have h2 : (⟨mem.length, 0⟩ : pointer) = s.view.data := by
      simpa [IRegularMatrix.ptr_data, derived_call, regular_view.derived, dense_matrix.view]
        using h
    have h3 := congrArg pointer.block h2
    simp only at h3
    omega
  · intro h
    have h2 : (⟨mem.length, 0⟩ : pointer) = s.view.data := by
      simpa [IRegularMatrix.ptr_data_const, derived_call, regular_view.derived,
        dense_matrix.view] using h
    have h3 := congrArg pointer.block h2
    simp only at h3
    omega
  · intro i j hi0 hi1 hj0 hj1
    obtain ⟨_, v, hv⟩ := fits_load mem s hl hfit i j hi0 hi1 hj0 hj1
    obtain ⟨b1, b2, b3, b4⟩ := colmajor_position _ _ i j hi0 hi1 hj0 hj1
    have hk : (i + j * s.view.shape.m).toNat < (s.view.shape.m * s.view.shape.n).toNat := by
      rw [Int.toNat_lt_toNat (lt_of_le_of_lt b1 b2)]
      exact b2
    have hkc : (((i + j * s.view.shape.m).toNat : Nat) : Int) = i + j * s.view.shape.m :=
      Int.toNat_of_nonneg b1
    refine ⟨⟨mem.length, i + j * s.view.shape.m⟩, s.view.data.add (i + j * s.ldim), v,
      ?_, ?_, ?_, ?_, hv⟩
    · rw [op_call_view_in_range
        (dense_matrix.view ⟨⟨mem.length, 0⟩, s.view.shape.m, s.view.shape.n⟩)
        i j hi0 hi1 hj0 hj1]
      simp [dense_matrix.view, pointer.add]
    · rw [op_call_view_in_range s.view i j hi0 hi1 hj0 hj1, (eval_source_elem s i j).2.2.1,
        (eval_source_elem s i j).2.2.2]
      simp
    · rw [← hkc, load_append_new, hget _ hk]
      simp only [hkc, b3, b4, (eval_source_elem s _ _).1]
      exact hv
    · rw [load_append_old _ _ _ (by simpa [pointer.add] using hblock)]
      exact hv

/-- Witness for C6 on the test case `mat_eval, ref_mat_ex`: `ldim = 7`, `m = 4`, `n = 5`,
the buffer filled with 1, 2, 3, ... -/
theorem C6_eval_round_trip_witness :
    ((0 : index_t) ≤ test_ref_ex.view.shape.m ∧ (0 : index_t) ≤ test_ref_ex.view.shape.n ∧
      test_ref_ex.view.shape.m ≤ test_ref_ex.ldim ∧ test_ref_ex.fits test_memory = true) ∧
    (∃ (mem2 : Memory Int) (R : dense_matrix),
      eval test_memory test_ref_ex.view.derived = some (mem2, R) ∧
      (IRegularMatrix.nrows R.view.derived).result = Except.ok test_ref_ex.view.shape.m ∧
      (IRegularMatrix.ncolumns R.view.derived).result = Except.ok test_ref_ex.view.shape.n ∧
      (IRegularMatrix.ptr_data R.view.derived).result
        ≠ (IRegularMatrix.ptr_data test_ref_ex.view.derived).result ∧
      (IRegularMatrix.ptr_data_const R.view.derived).result
        ≠ (IRegularMatrix.ptr_data_const test_ref_ex.view.derived).result ∧
      ∀ i j : index_t, 0 ≤ i → i < test_ref_ex.view.shape.m → 0 ≤ j → j < test_ref_ex.view.shape.n →
        ∃ (p q : pointer) (v : Int),
          (IRegularMatrix.op_call true R.view.derived i j).result = Except.ok p ∧
          (IRegularMatrix.op_call true test_ref_ex.view.derived i j).result = Except.ok q ∧
          Memory.load mem2 p = some v ∧ Memory.load mem2 q = some v ∧
          Memory.load test_memory q = some v) :=
  ⟨⟨by decide, by decide, by decide, by decide⟩,
    C6_eval_round_trip test_memory test_ref_ex (by decide) (by decide) (by decide)
      (by decide)⟩

end Materialization

section Evaluations

/-- On the 4×5 matrix with checking enabled: `a(1, 2)` asks `nrows()`, `ncolumns()`, then
`elem(1, 2)`; `a(4, 0)` stops after `nrows()`; `a(-1, 0)` asks nothing; `a(0, 5)` stops
after `ncolumns()`. -/
theorem op_call_checked_evaluations :
    IRegularMatrix.op_call true example_4x5.derived 1 2
      = ⟨[Call.nrows, Call.ncolumns, Call.elem 1 2], Except.ok ⟨0, 9⟩⟩ ∧
    IRegularMatrix.op_call true example_4x5.derived 4 0
      = ⟨[Call.nrows], Except.error "Subscripts out of range."⟩ ∧
    IRegularMatrix.op_call true example_4x5.derived (-1) 0
      = ⟨[], Except.error "Subscripts out of range."⟩ ∧
    IRegularMatrix.op_call true example_4x5.derived 0 5
      = ⟨[Call.nrows, Call.ncolumns], Except.error "Subscripts out of range."⟩ := by
  refine ⟨rfl, rfl, rfl, rfl⟩

/-- On the 4×5 matrix: `ptr_col(5)` and `ptr_col(-1)` with checking enabled are refused
before the concrete `ptr_col`; `ptr_col(4)` is served; with checking disabled
`ptr_col(5)` goes straight to the concrete type. -/
theorem ptr_col_evaluations :
    IRegularMatrix.ptr_col true example_4x5.derived 5
      = ⟨[Call.ncolumns], Except.error "Index out of range."⟩ ∧
    IRegularMatrix.ptr_col true example_4x5.derived (-1)
      = ⟨[], Except.error "Index out of range."⟩ ∧
    IRegularMatrix.ptr_col true example_4x5.derived 4
      = ⟨[Call.ncolumns, Call.ptr_col 4], Except.ok ⟨0, 16⟩⟩ ∧
    IRegularMatrix.ptr_col false example_4x5.derived 5
      = ⟨[Call.ptr_col 5], Except.ok ⟨0, 20⟩⟩ := by
  refine ⟨rfl, rfl, rfl, rfl⟩

/-- On the 4×5 matrix: the views of the spec's end-to-end scenario. -/
theorem view_evaluations :
    IRegularMatrix.column true colview_whole example_4x5.derived 2
      = ⟨[Call.ncolumns, Call.colview_get 2],
          Except.ok (⟨⟨0, 8⟩, ⟨4, 1⟩, 1, 4⟩ : regular_view)⟩ ∧
    IRegularMatrix.column true colview_whole example_4x5.derived 5
      = ⟨[Call.ncolumns], Except.error "Index out of range."⟩ ∧
    IRegularMatrix.op_call_block matview_range example_4x5.derived ⟨1, 3⟩ ⟨1, 4⟩
      = ⟨[Call.matview_get], Except.ok (⟨⟨0, 5⟩, ⟨2, 3⟩, 1, 4⟩ : regular_view)⟩ ∧
    IRegularMatrix.diag diagview example_3x3.derived
      = ⟨[Call.diagview_get], Except.ok (⟨⟨0, 2⟩, ⟨3, 1⟩, 6, 18⟩ : regular_view)⟩ ∧
    iterate 6 ⟨0, 0⟩ ⟨0, 6⟩ = some [⟨0, 0⟩, ⟨0, 1⟩, ⟨0, 2⟩, ⟨0, 3⟩, ⟨0, 4⟩, ⟨0, 5⟩] ∧
    iterate 5 ⟨0, 0⟩ ⟨0, 6⟩ = none := by
  refine ⟨rfl, rfl, rfl, rfl, by decide, by decide⟩

/-- The test case `mat_eval, ref_mat_ex`: the evaluation copies the 4 leading values of
each of the 5 columns of the `ldim = 7` buffer into a new packed buffer. -/
theorem eval_evaluation :
    eval test_memory test_ref_ex.view.derived
      = some (test_memory ++
          [[1, 2, 3, 4, 8, 9, 10, 11, 15, 16, 17, 18, 22, 23, 24, 25, 29, 30, 31, 32]],
          { data := ⟨1, 0⟩, m := 4, n := 5 }) := by
  decide

end Evaluations

end lmat
